import Mathlib

/-!
Verification of the load-gating / cache-invalidation / merge-reconciliation
core of the CodeName_tas repository.

The Rust source is shallowly embedded: entity structs from `src/model.rs`
become Lean structures (timestamps `DateTime<Utc>` / `Instant` are embedded
as `Nat`); `HashMap` becomes an association list with overwrite-insert
semantics; `HashSet` becomes `Finset`; fallible code returns `Except`.
Functions that call `Instant::now()` take an explicit `now : Nat` argument.
Logger and debug-overlay calls in the source touch only debug-overlay
fields and are omitted from the embedding; toast TTL pruning and the
10-toast cap (wall-clock bookkeeping) are likewise omitted, only the
append of the message is modelled.
-/

namespace Tas

/-! ## Entity model (src/model.rs) -/

structure Universe where
  id : String
  name : String
  description : String
  archived : Bool
  deriving DecidableEq, Repr

structure Creature where
  id : String
  name : String
  kind : String
  habitat : String
  description : String
  danger : String
  home_location_id : Option String
  archived : Bool
  deriving DecidableEq, Repr

structure Location where
  id : String
  universe_id : String
  parent_id : Option String
  name : String
  description : String
  kind : String
  deriving DecidableEq, Repr

structure TimelineEra where
  id : String
  universe_id : String
  name : String
  start_year : Int
  end_year : Option Int
  description : String
  color : String
  deriving DecidableEq, Repr

structure TimelineEvent where
  id : String
  universe_id : String
  title : String
  description : String
  year : Int
  display_date : String
  importance : String
  kind : String
  color : String
  location_id : Option String
  deriving DecidableEq, Repr

structure Board where
  id : String
  name : String
  kind : String
  deriving DecidableEq, Repr

structure Card where
  id : String
  column_id : String
  title : String
  description : String
  position : Int
  priority : String
  deriving DecidableEq, Repr

structure Scene where
  id : String
  chapter_id : String
  title : String
  body : String
  position : Int
  status : String
  word_count : Int
  created_at : Nat
  updated_at : Nat
  deriving DecidableEq, Repr

structure Novel where
  id : String
  universe_id : Option String
  title : String
  synopsis : String
  status : String
  created_at : Nat
  updated_at : Nat
  deriving DecidableEq, Repr

structure Chapter where
  id : String
  novel_id : String
  title : String
  position : Int
  synopsis : String
  status : String
  created_at : Nat
  updated_at : Nat
  deriving DecidableEq, Repr

/-- `KanbanBoardData` from src/model.rs; only the `board` header is needed by
the fetch orchestrator (`request_pm_board_if_needed` reads `d.board.id`). -/
structure KanbanBoardData where
  board : Board
  deriving DecidableEq, Repr

/-! ## Routes and load keys (src/app.rs, src/state.rs) -/

inductive Route where
  | Overview
  | Workspaces
  | UniverseList
  | UniverseDetail (universe_id : String)
  | Bestiary (universe_id : String)
  | Locations (universe_id : String)
  | Timeline (universe_id : String)
  | PmList
  | PmBoard (board_id : String)
  | Forge
  | Assets
  | Account
  | Trash
  deriving DecidableEq, Repr

inductive ForgeLoadKey where
  | Novels
  | Chapters (novel_id : String)
  | Scenes (chapter_id : String)
  deriving DecidableEq, Repr

inductive CoreLoadKey where
  | UniversesList
  | BoardsList
  | PmBoard (board_id : String)
  | Creatures (universe_id : String)
  | Locations (universe_id : String)
  | Timeline (universe_id : String)
  | Snapshots (universe_id : String)
  deriving DecidableEq, Repr

/-! ## HashMap embedding: association lists with overwrite-insert.
Rust's `HashMap` is unordered; every use in the embedded code is
order-insensitive (lookup / overwrite-insert / remove). -/

def amFind {β : Type} (m : List (String × β)) (k : String) : Option β :=
  (m.find? (fun p => p.1 == k)).map Prod.snd

/-- `HashMap::insert`: replace the binding for `k` if present (map keys are
unique), otherwise add one. -/
def amInsert {β : Type} : List (String × β) → String → β → List (String × β)
  | [], k, v => [(k, v)]
  | p :: rest, k, v =>
    if p.1 == k then (k, v) :: rest else p :: amInsert rest k v

def amErase {β : Type} (m : List (String × β)) (k : String) :
    List (String × β) :=
  m.filter (fun p => p.1 != k)

/-! ## Write-queue command vocabulary (src/state.rs, `enum DbAction`). -/

inductive DemoResetScope where
  | All
  | Bestiary
  | Locations
  | Timeline
  deriving DecidableEq, Repr

inductive DbAction where
  | CreateUniverse (id name desc : String)
  | InjectDemoData (id : String)
  | ResetDemoDataScoped (id : String) (scope : DemoResetScope)
  | SnapshotCreate (universe_id name : String)
  | SnapshotDelete (snapshot_id : String)
  | SnapshotRestore (snapshot_id : String)
  | CreateBoard (id name : String)
  | SaveCreature (c : Creature) (universe_id : String)
  | ArchiveCreature (id : String) (archived : Bool)
  | SaveLocation (l : Location)
  | SaveEvent (e : TimelineEvent)
  | SaveEra (e : TimelineEra)
  | SaveCard (c : Card)
  | MoveCard (card_id column_id : String) (position : Int)
  | RebalanceColumn (column_id : String)
  | DeleteCard (card_id : String)
  | CreateNovel (novel_id : String) (universe_id : Option String) (title : String)
  | UpdateNovel (n : Novel)
  | CreateChapter (chapter_id novel_id title : String)
  | UpdateChapter (c : Chapter)
  | ReorderChapter (chapter_id : String) (position : Int)
  | CreateScene (scene_id chapter_id title : String)
  | UpdateScene (sc : Scene)
  | ReorderScene (scene_id : String) (position : Int)
  | MoveToTrash (target_type target_id display_name : String)
      (display_info : Option String) (parent_type parent_id : Option String)
      (payload_json : String)
  | RestoreFromTrash (trash_entry_id : String)
  | PermanentDelete (trash_entry_id : String)
  | EmptyTrash
  | CleanupOldTrash
  deriving DecidableEq, Repr

/-- `UniverseSnapshot` from src/model.rs (snapshot list rows). -/
structure UniverseSnapshot where
  id : String
  universe_id : String
  name : String
  created_at : Int
  size_bytes : Int
  deriving DecidableEq, Repr

/-! ## Application state (src/state.rs, `AppState`).

Only the fields read or written by the embedded controllers are modelled;
the remaining fields of the monolithic struct (rendering caches, drag
state, debug overlay, ...) are untouched by the functions under study.
`text_editor::Content` is embedded as the `String` it holds. -/

structure AppState where
  route : Route
  universes : List Universe
  boards_list : List Board
  projects : List String
  -- Forge tree + selection
  novels : List Novel
  active_novel_id : Option String
  active_novel_chapters : List Chapter
  active_chapter_id : Option String
  active_chapter_scenes : List Scene
  active_scene_id : Option String
  chapters_by_novel_id : List (String × List Chapter)
  scenes_by_chapter_id : List (String × List Scene)
  expanded_novels : Finset String
  expanded_chapters : Finset String
  forge_content : String
  forge_last_edit : Option Nat
  forge_debounce_task_id : Option Nat
  loaded_forge_universe : Option String
  -- Forge load ledger
  forge_loading_in_progress : Finset ForgeLoadKey
  forge_chapters_loaded_for : List (String × Nat)
  forge_scenes_loaded_for : List (String × Nat)
  last_novels_reload : Nat
  last_chapters_reload : Nat
  last_scenes_reload : Nat
  -- Core collections + ledger
  creatures : List Creature
  creatures_index : List (String × Nat)
  loaded_creatures_universe : Option String
  core_creatures_loaded_for : List (String × Nat)
  locations : List Location
  loaded_locations_universe : Option String
  core_locations_loaded_for : List (String × Nat)
  timeline_events : List TimelineEvent
  timeline_eras : List TimelineEra
  loaded_timeline_universe : Option String
  core_timeline_loaded_for : List (String × Nat)
  snapshots : List UniverseSnapshot
  loaded_snapshots_universe : Option String
  core_snapshots_loaded_for : List (String × Nat)
  pm_data : Option KanbanBoardData
  pm_board_loaded_for : List (String × Nat)
  core_loading_in_progress : Finset CoreLoadKey
  last_universes_reload : Nat
  last_boards_reload : Nat
  -- Write queue
  db_queue : List DbAction
  db_inflight : Option DbAction
  trash_loaded : Bool
  -- misc flags read by the orchestrator
  debug_overlay_open : Bool
  debug_schema_version : Option Int
  integrity_busy : Bool
  -- toasts: only the appended messages are modelled
  toast_counter : Nat
  toasts : List String
  deriving DecidableEq

/-- Field-wise extensionality for `AppState`, stated by hand: the
`@[ext]`-generated lemma's proof term is deep enough to matter for
downstream tooling, this one is shallow. -/
theorem AppState.ext {x y : AppState}
    (h1 : x.route = y.route)
    (h2 : x.universes = y.universes)
    (h3 : x.boards_list = y.boards_list)
    (h4 : x.projects = y.projects)
    (h5 : x.novels = y.novels)
    (h6 : x.active_novel_id = y.active_novel_id)
    (h7 : x.active_novel_chapters = y.active_novel_chapters)
    (h8 : x.active_chapter_id = y.active_chapter_id)
    (h9 : x.active_chapter_scenes = y.active_chapter_scenes)
    (h10 : x.active_scene_id = y.active_scene_id)
    (h11 : x.chapters_by_novel_id = y.chapters_by_novel_id)
    (h12 : x.scenes_by_chapter_id = y.scenes_by_chapter_id)
    (h13 : x.expanded_novels = y.expanded_novels)
    (h14 : x.expanded_chapters = y.expanded_chapters)
    (h15 : x.forge_content = y.forge_content)
    (h16 : x.forge_last_edit = y.forge_last_edit)
    (h17 : x.forge_debounce_task_id = y.forge_debounce_task_id)
    (h18 : x.loaded_forge_universe = y.loaded_forge_universe)
    (h19 : x.forge_loading_in_progress = y.forge_loading_in_progress)
    (h20 : x.forge_chapters_loaded_for = y.forge_chapters_loaded_for)
    (h21 : x.forge_scenes_loaded_for = y.forge_scenes_loaded_for)
    (h22 : x.last_novels_reload = y.last_novels_reload)
    (h23 : x.last_chapters_reload = y.last_chapters_reload)
    (h24 : x.last_scenes_reload = y.last_scenes_reload)
    (h25 : x.creatures = y.creatures)
    (h26 : x.creatures_index = y.creatures_index)
    (h27 : x.loaded_creatures_universe = y.loaded_creatures_universe)
    (h28 : x.core_creatures_loaded_for = y.core_creatures_loaded_for)
    (h29 : x.locations = y.locations)
    (h30 : x.loaded_locations_universe = y.loaded_locations_universe)
    (h31 : x.core_locations_loaded_for = y.core_locations_loaded_for)
    (h32 : x.timeline_events = y.timeline_events)
    (h33 : x.timeline_eras = y.timeline_eras)
    (h34 : x.loaded_timeline_universe = y.loaded_timeline_universe)
    (h35 : x.core_timeline_loaded_for = y.core_timeline_loaded_for)
    (h36 : x.loaded_snapshots_universe = y.loaded_snapshots_universe)
    (h37 : x.core_snapshots_loaded_for = y.core_snapshots_loaded_for)
    (h38 : x.pm_data = y.pm_data)
    (h39 : x.pm_board_loaded_for = y.pm_board_loaded_for)
    (h40 : x.core_loading_in_progress = y.core_loading_in_progress)
    (h41 : x.last_universes_reload = y.last_universes_reload)
    (h42 : x.last_boards_reload = y.last_boards_reload)
    (h43 : x.db_queue = y.db_queue)
    (h44 : x.db_inflight = y.db_inflight)
    (h45 : x.trash_loaded = y.trash_loaded)
    (h46 : x.debug_overlay_open = y.debug_overlay_open)
    (h47 : x.debug_schema_version = y.debug_schema_version)
    (h48 : x.integrity_busy = y.integrity_busy)
    (h49 : x.toast_counter = y.toast_counter)
    (h50 : x.toasts = y.toasts)
    (h51 : x.snapshots = y.snapshots) :
    x = y := by
  cases x
  cases y
  congr

/-- `AppState::show_toast` (src/state.rs:501): bump the counter and append
the message (TTL pruning / cap omitted, see the header comment). -/
def show_toast (s : AppState) (msg : String) : AppState :=
  { s with toast_counter := s.toast_counter + 1, toasts := s.toasts ++ [msg] }

/-- `AppState::rebuild_creatures_index` (src/state.rs:685). -/
def rebuild_creatures_index (s : AppState) : AppState :=
  let idx := s.creatures.enum.foldl (fun m p => amInsert m p.2.id p.1) []
  { s with creatures_index := idx }

/-! ## Core fetch lifecycle primitives (src/state.rs:607-656).
`Instant::now()` becomes the explicit `now` argument; `duration_since`
is truncating `Nat` subtraction. -/

/-- `AppState::core_try_begin_global_load`: refuse if the key is already in
progress or the throttle window has not elapsed; otherwise insert the key
and return the new timestamp. -/
def core_try_begin_global_load (s : AppState) (key : CoreLoadKey)
    (last_reload : Nat) (throttle_ms : Nat) (now : Nat) :
    Option Nat × AppState :=
  if key ∈ s.core_loading_in_progress then (none, s)
  else
    let elapsed := now - last_reload
    if elapsed < throttle_ms then (none, s)
    else (some now,
      { s with core_loading_in_progress := insert key s.core_loading_in_progress })

/-- `AppState::core_try_begin_scoped_load`: same refusal rules, throttle
evaluated against the scope's own `loaded_at`. Does not update `loaded_for`. -/
def core_try_begin_scoped_load (s : AppState) (key : CoreLoadKey)
    (loaded_at : Option Nat) (throttle_ms : Nat) (now : Nat) :
    Bool × AppState :=
  if key ∈ s.core_loading_in_progress then (false, s)
  else
    let allow := match loaded_at with
      | some t => decide (throttle_ms ≤ now - t)
      | none => true
    if !allow then (false, s)
    else (true,
      { s with core_loading_in_progress := insert key s.core_loading_in_progress })

/-! ## Forge data controller (src/controllers/forge_data_controller.rs). -/

def NOVELS_THROTTLE_MS : Nat := 800
def CHAPTERS_THROTTLE_MS : Nat := 800
def SCENES_THROTTLE_MS : Nat := 800

/-- `mark_chapters_load_finished`: release gating for the novel's chapter
key and record the completion time in `forge_chapters_loaded_for`. -/
def mark_chapters_load_finished (s : AppState) (novel_id : String) (now : Nat) :
    AppState :=
  { s with
    forge_loading_in_progress :=
      s.forge_loading_in_progress.erase (ForgeLoadKey.Chapters novel_id)
    forge_chapters_loaded_for :=
      amInsert s.forge_chapters_loaded_for novel_id now }

/-- `mark_scenes_load_finished` (forge_data_controller.rs:239-243). -/
def mark_scenes_load_finished (s : AppState) (chapter_id : String) (now : Nat) :
    AppState :=
  { s with
    forge_loading_in_progress :=
      s.forge_loading_in_progress.erase (ForgeLoadKey.Scenes chapter_id)
    forge_scenes_loaded_for :=
      amInsert s.forge_scenes_loaded_for chapter_id now }

/-- `mark_novels_load_finished`. -/
def mark_novels_load_finished (s : AppState) : AppState :=
  { s with forge_loading_in_progress :=
      s.forge_loading_in_progress.erase ForgeLoadKey.Novels }

/-- `load_chapters_if_needed` (forge_data_controller.rs:69-150): gating +
per-scope throttle + global throttle; on success inserts the key, records
`last_chapters_reload` and emits the chapter fetch (the returned flag). -/
def load_chapters_if_needed (s : AppState) (novel_id : String) (now : Nat) :
    AppState × Bool :=
  let key := ForgeLoadKey.Chapters novel_id
  let throttled : Bool := match amFind s.forge_chapters_loaded_for novel_id with
    | some last_loaded => decide (now - last_loaded < CHAPTERS_THROTTLE_MS)
    | none => false
  -- the source's sequential early returns, which (modulo omitted debug
  -- pushes) all return the state unchanged with no task emitted
  if s.route ≠ Route.Forge ∨ s.active_novel_id ≠ some novel_id ∨
      key ∈ s.forge_loading_in_progress ∨ throttled = true ∨
      now - s.last_chapters_reload < CHAPTERS_THROTTLE_MS then
    (s, false)
  else
    ({ s with
        last_chapters_reload := now
        forge_loading_in_progress := insert key s.forge_loading_in_progress },
     true)

/-! ## The merge reconciler (navigation_controller.rs fetch handlers).
The source builds a `HashMap` keyed by entity id, inserting the fetched
entities first and the local ones on top, then sorts values by id. -/

def chapLE (a b : Chapter) : Prop := a.id ≤ b.id

instance : DecidableRel chapLE := fun a b =>
  inferInstanceAs (Decidable (a.id ≤ b.id))

instance : IsTotal Chapter chapLE := ⟨fun a b => le_total a.id b.id⟩

instance : IsTrans Chapter chapLE := ⟨fun _ _ _ h1 h2 => le_trans h1 h2⟩

def scnLE (a b : Scene) : Prop := a.id ≤ b.id

instance : DecidableRel scnLE := fun a b =>
  inferInstanceAs (Decidable (a.id ≤ b.id))

instance : IsTotal Scene scnLE := ⟨fun a b => le_total a.id b.id⟩

instance : IsTrans Scene scnLE := ⟨fun _ _ _ h1 h2 => le_trans h1 h2⟩

/-- The "local wins" merge of `handle_forge_chapters_fetched`
(navigation_controller.rs:145-161): fetched first, local overlaid,
values sorted by id. -/
def mergeChapters (fetched local_list : List Chapter) : List Chapter :=
  let by_id := fetched.foldl (fun m c => amInsert m c.id c) []
  let by_id := local_list.foldl (fun m c => amInsert m c.id c) by_id
  List.insertionSort chapLE (by_id.map Prod.snd)

/-- Same merge for scenes (`handle_scenes_fetched`,
navigation_controller.rs:479-494). -/
def mergeScenes (fetched local_list : List Scene) : List Scene :=
  let by_id := fetched.foldl (fun m sc => amInsert m sc.id sc) []
  let by_id := local_list.foldl (fun m sc => amInsert m sc.id sc) by_id
  List.insertionSort scnLE (by_id.map Prod.snd)

/-! ## Safe-fallback repair (`ensure_forge_safe_fallback`,
navigation_controller.rs:379-462). The function is a sequence of blocks;
each block below is one block of the source, composed in order. -/

/-- `the_forge_controller::cancel_debounce` (the_forge_controller.rs:1021). -/
def cancel_debounce (s : AppState) : AppState :=
  { s with forge_last_edit := none, forge_debounce_task_id := none }

/-- Block 1: if the active novel does not exist, fall back to the first
novel (or none) and clear all downstream selection and the editor. -/
def fallbackNovelFix (s : AppState) : AppState :=
  let active_novel_exists := match s.active_novel_id with
    | some id => s.novels.any (fun n => n.id == id)
    | none => false
  if active_novel_exists then s
  else
    cancel_debounce
      { s with
        active_novel_id := s.novels.head?.map Novel.id
        active_novel_chapters := []
        active_chapter_id := none
        active_chapter_scenes := []
        active_scene_id := none
        forge_content := "" }

/-- Blocks 2-3: expand the active novel, hydrate the active chapter view
from the tree cache when empty, then re-validate the active chapter. -/
def fallbackChapterStage (s : AppState) : AppState :=
  match s.active_novel_id with
  | none => s
  | some novel_id =>
    let s := { s with expanded_novels := insert novel_id s.expanded_novels }
    let s :=
      if s.active_novel_chapters.isEmpty then
        match amFind s.chapters_by_novel_id novel_id with
        | some cached => { s with active_novel_chapters := cached }
        | none => s
      else s
    let active_chapter_exists := match s.active_chapter_id with
      | some cid => s.active_novel_chapters.any (fun c => c.id == cid)
      | none => false
    if active_chapter_exists then s
    else
      cancel_debounce
        { s with
          active_chapter_id := s.active_novel_chapters.head?.map Chapter.id
          active_chapter_scenes := []
          active_scene_id := none
          forge_content := "" }

/-- Blocks 4-5: expand the active chapter, hydrate the active scene view
from the tree cache when empty, then re-validate the active scene. -/
def fallbackSceneStage (s : AppState) : AppState :=
  match s.active_chapter_id with
  | none => s
  | some chapter_id =>
    let s := { s with expanded_chapters := insert chapter_id s.expanded_chapters }
    let s :=
      if s.active_chapter_scenes.isEmpty then
        match amFind s.scenes_by_chapter_id chapter_id with
        | some cached => { s with active_chapter_scenes := cached }
        | none => s
      else s
    let active_scene_exists := match s.active_scene_id with
      | some sid => s.active_chapter_scenes.any (fun sc => sc.id == sid)
      | none => false
    if active_scene_exists then s
    else
      let s := { s with active_scene_id := s.active_chapter_scenes.head?.map Scene.id }
      if s.active_scene_id = none then
        cancel_debounce { s with forge_content := "" }
      else s

/-- `ensure_forge_safe_fallback`: no-op off the Forge route, otherwise the
three repair blocks in sequence. -/
def ensure_forge_safe_fallback (s : AppState) : AppState :=
  if s.route ≠ Route.Forge then s
  else fallbackSceneStage (fallbackChapterStage (fallbackNovelFix s))

/-! ## Fetch handlers (navigation_controller.rs, messages_controller.rs). -/

/-- The `Ok` branch of `handle_forge_chapters_fetched` before the final
repair pass (navigation_controller.rs:136-192): release gating, stamp
loaded-for, merge into the tree entry, and sync the active view when the
novel is still the active one. -/
def apply_forge_chapters_ok (s : AppState) (novel_id : String)
    (chapters : List Chapter) (now : Nat) : AppState :=
  let s := mark_chapters_load_finished s novel_id now
  let local_opt := amFind s.chapters_by_novel_id novel_id
  let s := { s with chapters_by_novel_id := amErase s.chapters_by_novel_id novel_id }
  let merged := mergeChapters chapters (local_opt.getD [])
  let chapter_ids := merged.map Chapter.id
  let s := { s with chapters_by_novel_id := amInsert s.chapters_by_novel_id novel_id merged }
  if s.active_novel_id = some novel_id then
    let s := { s with
      active_novel_chapters := merged
      expanded_chapters := chapter_ids.foldl (fun e i => insert i e) s.expanded_chapters }
    if s.active_chapter_id = none then
      match chapter_ids.head? with
      | some first_id =>
        { s with
          active_chapter_id := some first_id
          active_chapter_scenes := []
          active_scene_id := none }
      | none => s
    else s
  else s

/-- `handle_forge_chapters_fetched` (navigation_controller.rs:130-216). -/
def handle_forge_chapters_fetched (s : AppState) (novel_id : String)
    (result : Except String (List Chapter)) (now : Nat) : AppState :=
  match result with
  | .ok chapters =>
    ensure_forge_safe_fallback (apply_forge_chapters_ok s novel_id chapters now)
  | .error e =>
    let s := mark_chapters_load_finished s novel_id now
    if s.active_novel_id = some novel_id then
      show_toast s ("Failed to load chapters: " ++ e)
    else s

/-- `handle_scenes_fetched` (navigation_controller.rs:467-530); also the
body of `handle_forge_scenes_fetched`. -/
def handle_scenes_fetched (s : AppState) (chapter_id : String)
    (result : Except String (List Scene)) (now : Nat) : AppState :=
  match result with
  | .ok scenes =>
    let s := mark_scenes_load_finished s chapter_id now
    let local_opt := amFind s.scenes_by_chapter_id chapter_id
    let s := { s with scenes_by_chapter_id := amErase s.scenes_by_chapter_id chapter_id }
    let merged := mergeScenes scenes (local_opt.getD [])
    let s := { s with scenes_by_chapter_id := amInsert s.scenes_by_chapter_id chapter_id merged }
    let s :=
      if s.active_chapter_id = some chapter_id then
        let s := { s with active_chapter_scenes := merged }
        if s.active_scene_id = none then
          match s.active_chapter_scenes.head? with
          | some first => { s with active_scene_id := some first.id }
          | none => s
        else s
      else s
    ensure_forge_safe_fallback s
  | .error e =>
    let s := mark_scenes_load_finished s chapter_id now
    if s.active_chapter_id = some chapter_id then
      show_toast s ("Failed to load scenes: " ++ e)
    else s

/-- The `Message::CreaturesFetched` handler (messages_controller.rs:151-195):
always release gating; apply data, `loaded_creatures_universe` and
`core_creatures_loaded_for` only when the Bestiary route for this universe
is still current. -/
def handle_creatures_fetched (s : AppState) (universe_id : String)
    (result : Except String (List Creature)) (now : Nat) : AppState :=
  let s := { s with core_loading_in_progress :=
      s.core_loading_in_progress.erase (CoreLoadKey.Creatures universe_id) }
  let still_relevant := s.route = Route.Bestiary universe_id
  match result with
  | .ok v =>
    if still_relevant then
      let s := rebuild_creatures_index { s with creatures := v }
      { s with
        loaded_creatures_universe := some universe_id
        core_creatures_loaded_for := amInsert s.core_creatures_loaded_for universe_id now }
    else s
  | .error e =>
    if still_relevant then show_toast s ("Action failed: " ++ e) else s

/-- `Message::UniversesFetched` (messages_controller.rs:79-93): release the
global gating key, apply the list on Ok, toast on Err. -/
def handle_universes_fetched (s : AppState)
    (result : Except String (List Universe)) : AppState :=
  let s := { s with core_loading_in_progress :=
      s.core_loading_in_progress.erase CoreLoadKey.UniversesList }
  match result with
  | .ok v => { s with universes := v }
  | .error e => show_toast s ("Action failed: " ++ e)

/-- `Message::BoardsFetched` (messages_controller.rs:96-110). -/
def handle_boards_fetched (s : AppState)
    (result : Except String (List Board)) : AppState :=
  let s := { s with core_loading_in_progress :=
      s.core_loading_in_progress.erase CoreLoadKey.BoardsList }
  match result with
  | .ok v => { s with boards_list := v }
  | .error e => show_toast s ("Action failed: " ++ e)

/-- `Message::PmBoardFetched` (messages_controller.rs:113-148): always
release the board's gating key; apply data and stamp loaded-for only when
that board's route is still current. -/
def handle_pm_board_fetched (s : AppState) (board_id : String)
    (result : Except String KanbanBoardData) (now : Nat) : AppState :=
  let s := { s with core_loading_in_progress :=
      s.core_loading_in_progress.erase (CoreLoadKey.PmBoard board_id) }
  let is_current_route := s.route = Route.PmBoard board_id
  match result with
  | .ok v =>
    if is_current_route then
      { s with
        pm_board_loaded_for := amInsert s.pm_board_loaded_for board_id now
        pm_data := some v }
    else s
  | .error e =>
    if is_current_route then show_toast s ("Action failed: " ++ e) else s

/-- Order used by the locations handler: `sort_by` on the lowercased name
(messages_controller.rs:219). -/
def locNameLE (a b : Location) : Prop := a.name.toLower ≤ b.name.toLower

instance : DecidableRel locNameLE := fun a b =>
  inferInstanceAs (Decidable (a.name.toLower ≤ b.name.toLower))

/-- `Message::LocationsFetched` (messages_controller.rs:198-243): release
gating; when the Locations/Bestiary/Timeline route for this universe is
still current, apply the name-sorted list and stamp the markers. The
handler also rebuilds the locations hierarchy cache, a derived render
cache not modelled in `AppState`. -/
def handle_locations_fetched (s : AppState) (universe_id : String)
    (result : Except String (List Location)) (now : Nat) : AppState :=
  let s := { s with core_loading_in_progress :=
      s.core_loading_in_progress.erase (CoreLoadKey.Locations universe_id) }
  let still_relevant :=
    s.route = Route.Locations universe_id ∨
    s.route = Route.Bestiary universe_id ∨
    s.route = Route.Timeline universe_id
  match result with
  | .ok v =>
    if still_relevant then
      { s with
        locations := List.insertionSort locNameLE v
        loaded_locations_universe := some universe_id
        core_locations_loaded_for :=
          amInsert s.core_locations_loaded_for universe_id now }
    else s
  | .error e =>
    if still_relevant then show_toast s ("Action failed: " ++ e) else s

/-- Order used by the timeline handler: `sort_by_key` on era start year and
event year (messages_controller.rs:263-264). -/
def eraStartLE (a b : TimelineEra) : Prop := a.start_year ≤ b.start_year

instance : DecidableRel eraStartLE := fun a b =>
  inferInstanceAs (Decidable (a.start_year ≤ b.start_year))

def evtYearLE (a b : TimelineEvent) : Prop := a.year ≤ b.year

instance : DecidableRel evtYearLE := fun a b =>
  inferInstanceAs (Decidable (a.year ≤ b.year))

/-- `Message::TimelineFetched` (messages_controller.rs:246-289). -/
def handle_timeline_fetched (s : AppState) (universe_id : String)
    (result : Except String (List TimelineEvent × List TimelineEra))
    (now : Nat) : AppState :=
  let s := { s with core_loading_in_progress :=
      s.core_loading_in_progress.erase (CoreLoadKey.Timeline universe_id) }
  let still_relevant := s.route = Route.Timeline universe_id
  match result with
  | .ok p =>
    if still_relevant then
      { s with
        timeline_events := List.insertionSort evtYearLE p.1
        timeline_eras := List.insertionSort eraStartLE p.2
        loaded_timeline_universe := some universe_id
        core_timeline_loaded_for :=
          amInsert s.core_timeline_loaded_for universe_id now }
    else s
  | .error e =>
    if still_relevant then show_toast s ("Action failed: " ++ e) else s

/-- `Message::SnapshotsFetched` (messages_controller.rs:313-345). -/
def handle_snapshots_fetched (s : AppState) (universe_id : String)
    (result : Except String (List UniverseSnapshot)) (now : Nat) : AppState :=
  let s := { s with core_loading_in_progress :=
      s.core_loading_in_progress.erase (CoreLoadKey.Snapshots universe_id) }
  let still_relevant := s.route = Route.UniverseDetail universe_id
  match result with
  | .ok v =>
    if still_relevant then
      { s with
        snapshots := v
        loaded_snapshots_universe := some universe_id
        core_snapshots_loaded_for :=
          amInsert s.core_snapshots_loaded_for universe_id now }
    else s
  | .error e =>
    if still_relevant then show_toast s ("Action failed: " ++ e) else s

/-- `handle_novels_fetched` (navigation_controller.rs:218-270): release the
novels gating key on both outcomes; on Ok apply the list, expand every
novel, default-select the first novel when nothing is selected, and run
the safe-fallback repair; on Err toast. -/
def handle_novels_fetched (s : AppState)
    (result : Except String (List Novel)) : AppState :=
  match result with
  | .ok novels =>
    let s := mark_novels_load_finished s
    let novel_ids := novels.map Novel.id
    let s := { s with novels := novels }
    let s := { s with expanded_novels :=
        novel_ids.foldl (fun e i => insert i e) s.expanded_novels }
    let s :=
      if s.active_novel_id = none then
        match novel_ids.head? with
        | some first_id =>
          { s with
            active_novel_id := some first_id
            active_novel_chapters := []
            active_chapter_id := none
            active_chapter_scenes := []
            active_scene_id := none }
        | none => s
      else s
    ensure_forge_safe_fallback s
  | .error e =>
    let s := mark_novels_load_finished s
    show_toast s ("Failed to load novels: " ++ e)

/-! ## A baseline state mirroring `AppState::new` (empty collections),
used as the starting point of concrete witnesses. -/

def baseState : AppState where
  route := Route.Overview
  universes := []
  boards_list := []
  projects := []
  novels := []
  active_novel_id := none
  active_novel_chapters := []
  active_chapter_id := none
  active_chapter_scenes := []
  active_scene_id := none
  chapters_by_novel_id := []
  scenes_by_chapter_id := []
  expanded_novels := ∅
  expanded_chapters := ∅
  forge_content := ""
  forge_last_edit := none
  forge_debounce_task_id := none
  loaded_forge_universe := none
  forge_loading_in_progress := ∅
  forge_chapters_loaded_for := []
  forge_scenes_loaded_for := []
  last_novels_reload := 0
  last_chapters_reload := 0
  last_scenes_reload := 0
  creatures := []
  creatures_index := []
  loaded_creatures_universe := none
  core_creatures_loaded_for := []
  locations := []
  loaded_locations_universe := none
  core_locations_loaded_for := []
  timeline_events := []
  timeline_eras := []
  loaded_timeline_universe := none
  core_timeline_loaded_for := []
  snapshots := []
  loaded_snapshots_universe := none
  core_snapshots_loaded_for := []
  pm_data := none
  pm_board_loaded_for := []
  core_loading_in_progress := ∅
  last_universes_reload := 0
  last_boards_reload := 0
  db_queue := []
  db_inflight := none
  trash_loaded := false
  debug_overlay_open := false
  debug_schema_version := none
  integrity_busy := false
  toast_counter := 0
  toasts := []

/-! ## C2 — gating exclusivity of the begin-load primitives. -/

/-- C2: for any load key, two begins without an intervening end never both
succeed: `core_try_begin_global_load` and `core_try_begin_scoped_load`
refuse when the key is in progress or the throttle has not elapsed, every
successful begin inserts the key into the in-progress set, and a second
begin on the same key (any clock, any throttle) is refused. The inlined
gating of `load_chapters_if_needed` has the same exclusivity. -/
lemma global_refused_of_mem (s : AppState) (key : CoreLoadKey) (lr th now : Nat)
    (h : key ∈ s.core_loading_in_progress) :
    (core_try_begin_global_load s key lr th now).1 = none := by
  simp [core_try_begin_global_load, h]

lemma scoped_refused_of_mem (s : AppState) (key : CoreLoadKey)
    (la : Option Nat) (th now : Nat) (h : key ∈ s.core_loading_in_progress) :
    (core_try_begin_scoped_load s key la th now).1 = false := by
  simp [core_try_begin_scoped_load, h]

lemma mem_after_global_success (s : AppState) (key : CoreLoadKey)
    (lr th now ts : Nat) (s2 : AppState)
    (h : core_try_begin_global_load s key lr th now = (some ts, s2)) :
    key ∈ s2.core_loading_in_progress := by
  simp only [core_try_begin_global_load] at h
  split_ifs at h with h1 h2
  · simp at h
  · simp at h
  · have hp := congrArg (fun p => p.2.core_loading_in_progress) h
    simp only at hp
    rw [← hp]
    exact Finset.mem_insert_self _ _

lemma mem_after_scoped_success (s : AppState) (key : CoreLoadKey)
    (la : Option Nat) (th now : Nat) (s2 : AppState)
    (h : core_try_begin_scoped_load s key la th now = (true, s2)) :
    key ∈ s2.core_loading_in_progress := by
  simp only [core_try_begin_scoped_load] at h
  split_ifs at h with h1 h2
  · simp at h
  · simp at h
  · have hp := congrArg (fun p => p.2.core_loading_in_progress) h
    simp only at hp
    rw [← hp]
    exact Finset.mem_insert_self _ _

lemma chapters_refused_of_mem (s : AppState) (nid : String) (now : Nat)
    (h : ForgeLoadKey.Chapters nid ∈ s.forge_loading_in_progress) :
    (load_chapters_if_needed s nid now).2 = false := by
  have hguard : s.route ≠ Route.Forge ∨ s.active_novel_id ≠ some nid ∨
      ForgeLoadKey.Chapters nid ∈ s.forge_loading_in_progress ∨
      (match amFind s.forge_chapters_loaded_for nid with
        | some last_loaded => decide (now - last_loaded < CHAPTERS_THROTTLE_MS)
        | none => false) = true ∨
      now - s.last_chapters_reload < CHAPTERS_THROTTLE_MS :=
    Or.inr (Or.inr (Or.inl h))
  simp only [load_chapters_if_needed]
  rw [if_pos hguard]

lemma mem_after_chapters_begin (s : AppState) (nid : String) (now : Nat)
    (s2 : AppState) (h : load_chapters_if_needed s nid now = (s2, true)) :
    ForgeLoadKey.Chapters nid ∈ s2.forge_loading_in_progress := by
  simp only [load_chapters_if_needed] at h
  split_ifs at h with h1
  · simp at h
  · have hp := congrArg (fun p => p.1.forge_loading_in_progress) h
    simp only at hp
    rw [← hp]
    exact Finset.mem_insert_self _ _

theorem C2_gating_exclusivity :
    (∀ s key lr th now ts s2,
      core_try_begin_global_load s key lr th now = (some ts, s2) →
      key ∈ s2.core_loading_in_progress ∧
        ∀ lr2 th2 now2, (core_try_begin_global_load s2 key lr2 th2 now2).1 = none)
    ∧ (∀ s key la th now s2,
      core_try_begin_scoped_load s key la th now = (true, s2) →
      key ∈ s2.core_loading_in_progress ∧
        ∀ la2 th2 now2, (core_try_begin_scoped_load s2 key la2 th2 now2).1 = false)
    ∧ (∀ s key lr th now, key ∈ s.core_loading_in_progress →
      (core_try_begin_global_load s key lr th now).1 = none)
    ∧ (∀ s key lr th now, now - lr < th →
      (core_try_begin_global_load s key lr th now).1 = none)
    ∧ (∀ s key la th now, key ∈ s.core_loading_in_progress →
      (core_try_begin_scoped_load s key la th now).1 = false)
    ∧ (∀ s key t th now, now - t < th →
      (core_try_begin_scoped_load s key (some t) th now).1 = false)
    ∧ (∀ s nid now s2, load_chapters_if_needed s nid now = (s2, true) →
      ∀ now2, (load_chapters_if_needed s2 nid now2).2 = false) := by
  refine ⟨?_, ?_, ?_, ?_, ?_, ?_, ?_⟩
  · intro s key lr th now ts s2 h
    have hm := mem_after_global_success s key lr th now ts s2 h
    exact ⟨hm, fun lr2 th2 now2 => global_refused_of_mem s2 key lr2 th2 now2 hm⟩
  · intro s key la th now s2 h
    have hm := mem_after_scoped_success s key la th now s2 h
    exact ⟨hm, fun la2 th2 now2 => scoped_refused_of_mem s2 key la2 th2 now2 hm⟩
  · exact global_refused_of_mem
  · intro s key lr th now h
    simp only [core_try_begin_global_load]
    split_ifs <;> rfl
  · exact scoped_refused_of_mem
  · intro s key t th now h
    simp only [core_try_begin_scoped_load]
    split_ifs with h1 h2
    · rfl
    · rfl
    · exfalso
      simp at h2
      omega
  · intro s nid now s2 h now2
    exact chapters_refused_of_mem s2 nid now2 (mem_after_chapters_begin s nid now s2 h)

/-- Witness for C2 at a concrete input: a successful global begin for the
universes key followed by a second attempt, which is refused. -/
theorem C2_gating_exclusivity_witness :
    (core_try_begin_global_load
      ((core_try_begin_global_load baseState CoreLoadKey.UniversesList 0 800 1000).2)
      CoreLoadKey.UniversesList 0 800 5000).1 = none :=
  (C2_gating_exclusivity.1 baseState CoreLoadKey.UniversesList 0 800 1000 1000
    ((core_try_begin_global_load baseState CoreLoadKey.UniversesList 0 800 1000).2)
    (by decide)).2 0 800 5000

/-! ## C1 — the local-wins merge.
Generic lemmas about the id-keyed map built by inserting fetched entities
first and local entities on top. -/

/-- Lookup of an entity by id in a plain list (the view-list analogue of a
map lookup). -/
def entFind {α : Type} (idf : α → String) (l : List α) (k : String) :
    Option α :=
  l.find? (fun a => idf a == k)

/-- First-`some` choice, the value-level reading of "local wins". -/
def oOr {α : Type} (a b : Option α) : Option α :=
  match a with
  | some x => some x
  | none => b

lemma amFind_cons_of_eq {β : Type} (p : String × β) (rest : List (String × β))
    (k : String) (h : p.1 = k) : amFind (p :: rest) k = some p.2 := by
  unfold amFind
  rw [List.find?_cons_of_pos rest (by simp [h])]
  rfl

lemma amFind_cons_of_ne {β : Type} (p : String × β) (rest : List (String × β))
    (k : String) (h : p.1 ≠ k) : amFind (p :: rest) k = amFind rest k := by
  unfold amFind
  rw [List.find?_cons_of_neg rest (by simp [h])]

lemma amFind_amInsert_self {β : Type} (m : List (String × β)) (k : String)
    (v : β) : amFind (amInsert m k v) k = some v := by
  induction m with
  | nil => exact amFind_cons_of_eq (k, v) [] k rfl
  | cons p rest ih =>
    by_cases h : p.1 = k
    · simp only [amInsert, beq_iff_eq, h, if_true]
      exact amFind_cons_of_eq (k, v) rest k rfl
    · simp only [amInsert, beq_iff_eq, h, if_false]
      rw [amFind_cons_of_ne p _ k h]
      exact ih

lemma amFind_amInsert_ne {β : Type} (m : List (String × β)) {k k' : String}
    (v : β) (h : k' ≠ k) : amFind (amInsert m k v) k' = amFind m k' := by
  induction m with
  | nil =>
    simp only [amInsert]
    rw [amFind_cons_of_ne (k, v) [] k' (fun hc => h hc.symm)]
  | cons p rest ih =>
    by_cases hp : p.1 = k
    · simp only [amInsert, beq_iff_eq, hp, if_true]
      rw [amFind_cons_of_ne (k, v) rest k' (fun hc => h hc.symm),
        amFind_cons_of_ne p rest k' (fun hc => h (hp ▸ hc).symm)]
    · simp only [amInsert, beq_iff_eq, hp, if_false]
      by_cases hq : p.1 = k'
      · rw [amFind_cons_of_eq p _ k' hq, amFind_cons_of_eq p rest k' hq]
      · rw [amFind_cons_of_ne p _ k' hq, amFind_cons_of_ne p rest k' hq]
        exact ih

lemma entFind_cons_of_eq {α : Type} (idf : α → String) (a : α) (l : List α)
    {k : String} (h : idf a = k) : entFind idf (a :: l) k = some a := by
  unfold entFind
  rw [List.find?_cons_of_pos l (by simp [h])]

lemma entFind_cons_ne {α : Type} (idf : α → String) (a : α) (l : List α)
    {k : String} (h : idf a ≠ k) :
    entFind idf (a :: l) k = entFind idf l k := by
  unfold entFind
  rw [List.find?_cons_of_neg l (by simp [h])]

lemma entFind_none_of_not_mem {α : Type} (idf : α → String) {l : List α}
    {k : String} (h : k ∉ l.map idf) : entFind idf l k = none := by
  unfold entFind
  rw [List.find?_eq_none]
  intro a ha
  simp only [beq_iff_eq]
  intro he
  exact h (he ▸ List.mem_map_of_mem idf ha)

/-- Looking up in the map produced by folding overwrite-inserts of `l` on
top of `m0`: an entity of `l` wins over `m0` on id collision. -/
lemma amFind_insert_fold {α : Type} (idf : α → String) (l : List α)
    (m0 : List (String × α)) (k : String) (hnd : (l.map idf).Nodup) :
    amFind (l.foldl (fun m a => amInsert m (idf a) a) m0) k
      = oOr (entFind idf l k) (amFind m0 k) := by
  induction l generalizing m0 with
  | nil => simp [entFind, oOr]
  | cons a rest ih =>
    simp only [List.map_cons, List.nodup_cons] at hnd
    rw [List.foldl_cons, ih _ hnd.2]
    by_cases hk : idf a = k
    · subst hk
      have hrest : entFind idf rest (idf a) = none :=
        entFind_none_of_not_mem idf hnd.1
      rw [hrest, entFind_cons_of_eq idf a rest rfl, amFind_amInsert_self]
      rfl
    · rw [entFind_cons_ne idf a rest hk,
        amFind_amInsert_ne m0 a (fun he => hk he.symm)]

/-- Well-formedness of the id-keyed maps: every value is stored under its
own id and keys are unique. -/
def amWf {α : Type} (idf : α → String) (m : List (String × α)) : Prop :=
  (∀ p ∈ m, idf p.2 = p.1) ∧ (m.map Prod.fst).Nodup

lemma mem_keys_amInsert {β : Type} {m : List (String × β)} {k x : String}
    {v : β} (h : x ∈ (amInsert m k v).map Prod.fst) :
    x ∈ m.map Prod.fst ∨ x = k := by
  induction m with
  | nil => simpa [amInsert] using h
  | cons p rest ih =>
    by_cases hp : p.1 = k
    · simp only [amInsert, beq_iff_eq, hp, if_true, List.map_cons,
        List.mem_cons] at h ⊢
      rcases h with h | h
      · exact Or.inr h
      · exact Or.inl (Or.inr h)
    · simp only [amInsert, beq_iff_eq, hp, if_false, List.map_cons,
        List.mem_cons] at h ⊢
      rcases h with h | h
      · exact Or.inl (Or.inl h)
      · rcases ih h with h2 | h2
        · exact Or.inl (Or.inr h2)
        · exact Or.inr h2

lemma amWf_amInsert {α : Type} (idf : α → String) {m : List (String × α)}
    (hw : amWf idf m) (a : α) : amWf idf (amInsert m (idf a) a) := by
  induction m with
  | nil => exact ⟨by simp [amInsert], by simp [amInsert]⟩
  | cons p rest ih =>
    obtain ⟨hall, hnd⟩ := hw
    simp only [List.map_cons, List.nodup_cons] at hnd
    have ihw := ih ⟨fun q hq => hall q (List.mem_cons_of_mem p hq), hnd.2⟩
    by_cases hp : p.1 = idf a
    · constructor
      · intro q hq
        simp only [amInsert, beq_iff_eq, hp, if_true, List.mem_cons] at hq
        rcases hq with hq | hq
        · subst hq; rfl
        · exact hall q (List.mem_cons_of_mem p hq)
      · simp only [amInsert, beq_iff_eq, hp, if_true, List.map_cons,
          List.nodup_cons]
        exact ⟨hp ▸ hnd.1, hnd.2⟩
    · constructor
      · intro q hq
        simp only [amInsert, beq_iff_eq, hp, if_false, List.mem_cons] at hq
        rcases hq with hq | hq
        · exact hq.symm ▸ hall p (List.mem_cons_self p rest)
        · exact ihw.1 q hq
      · simp only [amInsert, beq_iff_eq, hp, if_false, List.map_cons,
          List.nodup_cons]
        refine ⟨fun hc => ?_, ihw.2⟩
        rcases mem_keys_amInsert hc with hc2 | hc2
        · exact hnd.1 hc2
        · exact hp hc2

lemma amWf_insert_fold {α : Type} (idf : α → String)
    {m0 : List (String × α)} (hw : amWf idf m0) (l : List α) :
    amWf idf (l.foldl (fun m a => amInsert m (idf a) a) m0) := by
  induction l generalizing m0 with
  | nil => exact hw
  | cons a rest ih => exact ih (amWf_amInsert idf hw a)

lemma entFind_values {α : Type} (idf : α → String) {m : List (String × α)}
    (hw : amWf idf m) (k : String) :
    entFind idf (m.map Prod.snd) k = amFind m k := by
  induction m with
  | nil => rfl
  | cons p rest ih =>
    obtain ⟨hall, hnd⟩ := hw
    simp only [List.map_cons, List.nodup_cons] at hnd
    have hid : idf p.2 = p.1 := hall p (List.mem_cons_self p rest)
    have ih2 := ih ⟨fun q hq => hall q (List.mem_cons_of_mem p hq), hnd.2⟩
    by_cases hp : p.1 = k
    · rw [List.map_cons,
        entFind_cons_of_eq idf p.2 (rest.map Prod.snd) (hid.trans hp),
        amFind_cons_of_eq p rest k hp]
    · rw [List.map_cons,
        entFind_cons_ne idf p.2 (rest.map Prod.snd) (fun hc => hp (hid ▸ hc)),
        amFind_cons_of_ne p rest k hp]
      exact ih2

lemma values_ids_nodup {α : Type} (idf : α → String) {m : List (String × α)}
    (hw : amWf idf m) : ((m.map Prod.snd).map idf).Nodup := by
  have he : (m.map Prod.snd).map idf = m.map Prod.fst := by
    rw [List.map_map]
    exact List.map_congr_left (fun p hp => hw.1 p hp)
  rw [he]
  exact hw.2

lemma entFind_eq_some_iff {α : Type} (idf : α → String) {l : List α}
    (hnd : (l.map idf).Nodup) {k : String} {c : α} :
    entFind idf l k = some c ↔ c ∈ l ∧ idf c = k := by
  constructor
  · intro h
    have hm := List.mem_of_find?_eq_some h
    have hp := List.find?_some h
    simp only [beq_iff_eq] at hp
    exact ⟨hm, hp⟩
  · rintro ⟨hm, hk⟩
    have hsome : (l.find? (fun a => idf a == k)).isSome := by
      rw [List.find?_isSome]
      exact ⟨c, hm, by simp [hk]⟩
    rcases ho : l.find? (fun a => idf a == k) with _ | d
    · rw [ho] at hsome; simp at hsome
    · have hd := List.mem_of_find?_eq_some ho
      have hdk : idf d = k := by simpa using List.find?_some ho
      have hdc : d = c := List.inj_on_of_nodup_map hnd hd hm (hdk.trans hk.symm)
      rw [entFind, ho, hdc]

lemma entFind_perm {α : Type} (idf : α → String) {l l2 : List α}
    (hp : l.Perm l2) (hnd : (l.map idf).Nodup) (k : String) :
    entFind idf l k = entFind idf l2 k := by
  have hnd2 : (l2.map idf).Nodup := ((hp.map idf).nodup_iff).1 hnd
  rcases ho : entFind idf l k with _ | c
  · symm
    unfold entFind at ho ⊢
    rw [List.find?_eq_none] at ho ⊢
    intro a ha
    exact ho a (hp.mem_iff.2 ha)
  · have hh := (entFind_eq_some_iff idf hnd).1 ho
    exact ((entFind_eq_some_iff idf hnd2).2 ⟨hp.mem_iff.1 hh.1, hh.2⟩).symm

/-! ## Shape lemmas for the safe-fallback stages: each stage only ever
rewrites a known set of fields, every other field is untouched. -/

lemma fallbackNovelFix_skeleton (s : AppState) :
    ∃ a b c d e f g h, fallbackNovelFix s =
      { s with
        active_novel_id := a
        active_novel_chapters := b
        active_chapter_id := c
        active_chapter_scenes := d
        active_scene_id := e
        forge_content := f
        forge_last_edit := g
        forge_debounce_task_id := h } := by
  unfold fallbackNovelFix cancel_debounce
  dsimp only
  split_ifs
  · exact ⟨s.active_novel_id, s.active_novel_chapters, s.active_chapter_id,
      s.active_chapter_scenes, s.active_scene_id, s.forge_content,
      s.forge_last_edit, s.forge_debounce_task_id, rfl⟩
  · exact ⟨_, _, _, _, _, _, _, _, rfl⟩

lemma fallbackChapterStage_skeleton (s : AppState) :
    ∃ a b c d e f g h, fallbackChapterStage s =
      { s with
        expanded_novels := a
        active_novel_chapters := b
        active_chapter_id := c
        active_chapter_scenes := d
        active_scene_id := e
        forge_content := f
        forge_last_edit := g
        forge_debounce_task_id := h } := by
  unfold fallbackChapterStage cancel_debounce
  generalize ha : s.active_novel_id = oa
  cases oa with
  | none =>
    dsimp only
    refine ⟨s.expanded_novels, s.active_novel_chapters, s.active_chapter_id,
      s.active_chapter_scenes, s.active_scene_id, s.forge_content,
      s.forge_last_edit, s.forge_debounce_task_id, ?_⟩
    rw [← ha]
  | some nid =>
    dsimp only
    split_ifs <;> first
      | exact ⟨_, _, _, _, _, _, _, _, rfl⟩
      | (split <;> exact ⟨_, _, _, _, _, _, _, _, rfl⟩)

lemma fallbackSceneStage_skeleton (s : AppState) :
    ∃ a b c d e f, fallbackSceneStage s =
      { s with
        expanded_chapters := a
        active_chapter_scenes := b
        active_scene_id := c
        forge_content := d
        forge_last_edit := e
        forge_debounce_task_id := f } := by
  unfold fallbackSceneStage cancel_debounce
  generalize ha : s.active_chapter_id = oc
  cases oc with
  | none =>
    dsimp only
    refine ⟨s.expanded_chapters, s.active_chapter_scenes, s.active_scene_id,
      s.forge_content, s.forge_last_edit, s.forge_debounce_task_id, ?_⟩
    rw [← ha]
  | some cid =>
    dsimp only
    split_ifs <;> first
      | exact ⟨_, _, _, _, _, _, rfl⟩
      | (split <;> exact ⟨_, _, _, _, _, _, rfl⟩)

/-- The repair pass never touches the route, the entity trees, the load
ledger, or any non-forge collection. -/
lemma fallback_untouched (s : AppState) :
    (ensure_forge_safe_fallback s).route = s.route
    ∧ (ensure_forge_safe_fallback s).novels = s.novels
    ∧ (ensure_forge_safe_fallback s).chapters_by_novel_id = s.chapters_by_novel_id
    ∧ (ensure_forge_safe_fallback s).scenes_by_chapter_id = s.scenes_by_chapter_id
    ∧ (ensure_forge_safe_fallback s).forge_loading_in_progress = s.forge_loading_in_progress
    ∧ (ensure_forge_safe_fallback s).forge_chapters_loaded_for = s.forge_chapters_loaded_for
    ∧ (ensure_forge_safe_fallback s).forge_scenes_loaded_for = s.forge_scenes_loaded_for
    ∧ (ensure_forge_safe_fallback s).core_loading_in_progress = s.core_loading_in_progress
    ∧ (ensure_forge_safe_fallback s).creatures = s.creatures
    ∧ (ensure_forge_safe_fallback s).loaded_creatures_universe = s.loaded_creatures_universe
    ∧ (ensure_forge_safe_fallback s).core_creatures_loaded_for = s.core_creatures_loaded_for := by
  unfold ensure_forge_safe_fallback
  split_ifs
  · exact ⟨rfl, rfl, rfl, rfl, rfl, rfl, rfl, rfl, rfl, rfl, rfl⟩
  · obtain ⟨a1, b1, c1, d1, e1, f1, g1, h1, hs1⟩ := fallbackNovelFix_skeleton s
    obtain ⟨a2, b2, c2, d2, e2, f2, g2, h2, hs2⟩ :=
      fallbackChapterStage_skeleton (fallbackNovelFix s)
    obtain ⟨a3, b3, c3, d3, e3, f3, hs3⟩ :=
      fallbackSceneStage_skeleton (fallbackChapterStage (fallbackNovelFix s))
    rw [hs3, hs2, hs1]
    exact ⟨rfl, rfl, rfl, rfl, rfl, rfl, rfl, rfl, rfl, rfl, rfl⟩

lemma oOr_none {α : Type} (a : Option α) : oOr a none = a := by
  cases a <;> rfl

lemma fallback_pres_cbn (s : AppState) :
    (ensure_forge_safe_fallback s).chapters_by_novel_id =
      s.chapters_by_novel_id :=
  (fallback_untouched s).2.2.1

/-- Lookup characterisation of the chapter merge: a local entity wins over
a fetched one with the same id, and ids present in either side survive. -/
lemma mergeChapters_find (fetched local_list : List Chapter) (k : String)
    (hf : (fetched.map Chapter.id).Nodup)
    (hl : (local_list.map Chapter.id).Nodup) :
    entFind Chapter.id (mergeChapters fetched local_list) k
      = oOr (entFind Chapter.id local_list k) (entFind Chapter.id fetched k) := by
  unfold mergeChapters
  have w0 : amWf Chapter.id ([] : List (String × Chapter)) := ⟨by simp, by simp⟩
  have w1 := amWf_insert_fold Chapter.id w0 fetched
  have w2 := amWf_insert_fold Chapter.id w1 local_list
  have hperm := List.perm_insertionSort chapLE
    ((local_list.foldl (fun m c => amInsert m c.id c)
      (fetched.foldl (fun m c => amInsert m c.id c) [])).map Prod.snd)
  have hndv := values_ids_nodup Chapter.id w2
  have hnds : ((List.insertionSort chapLE
      ((local_list.foldl (fun m c => amInsert m c.id c)
        (fetched.foldl (fun m c => amInsert m c.id c) [])).map Prod.snd)).map
          Chapter.id).Nodup :=
    ((hperm.map Chapter.id).nodup_iff).2 hndv
  rw [entFind_perm Chapter.id hperm hnds k, entFind_values Chapter.id w2 k,
    amFind_insert_fold Chapter.id local_list _ k hl,
    amFind_insert_fold Chapter.id fetched _ k hf]
  rw [show amFind ([] : List (String × Chapter)) k = none from rfl, oOr_none]

lemma mergeChapters_sorted (fetched local_list : List Chapter) :
    List.Sorted chapLE (mergeChapters fetched local_list) :=
  List.sorted_insertionSort chapLE _

lemma fallback_pres_sbc (s : AppState) :
    (ensure_forge_safe_fallback s).scenes_by_chapter_id =
      s.scenes_by_chapter_id :=
  (fallback_untouched s).2.2.2.1

/-- Lookup characterisation of the scene merge: same statement as for
chapters. -/
lemma mergeScenes_find (fetched local_list : List Scene) (k : String)
    (hf : (fetched.map Scene.id).Nodup)
    (hl : (local_list.map Scene.id).Nodup) :
    entFind Scene.id (mergeScenes fetched local_list) k
      = oOr (entFind Scene.id local_list k) (entFind Scene.id fetched k) := by
  unfold mergeScenes
  have w0 : amWf Scene.id ([] : List (String × Scene)) := ⟨by simp, by simp⟩
  have w1 := amWf_insert_fold Scene.id w0 fetched
  have w2 := amWf_insert_fold Scene.id w1 local_list
  have hperm := List.perm_insertionSort scnLE
    ((local_list.foldl (fun m sc => amInsert m sc.id sc)
      (fetched.foldl (fun m sc => amInsert m sc.id sc) [])).map Prod.snd)
  have hndv := values_ids_nodup Scene.id w2
  have hnds : ((List.insertionSort scnLE
      ((local_list.foldl (fun m sc => amInsert m sc.id sc)
        (fetched.foldl (fun m sc => amInsert m sc.id sc) [])).map Prod.snd)).map
          Scene.id).Nodup :=
    ((hperm.map Scene.id).nodup_iff).2 hndv
  rw [entFind_perm Scene.id hperm hnds k, entFind_values Scene.id w2 k,
    amFind_insert_fold Scene.id local_list _ k hl,
    amFind_insert_fold Scene.id fetched _ k hf]
  rw [show amFind ([] : List (String × Scene)) k = none from rfl, oOr_none]

lemma mergeScenes_sorted (fetched local_list : List Scene) :
    List.Sorted scnLE (mergeScenes fetched local_list) :=
  List.sorted_insertionSort scnLE _

/-- The scenes handler's Ok branch replaces the tree entry of its chapter
scope with the merge, like the chapters handler. -/
lemma scenes_ok_entry (s : AppState) (cid : String) (scenes : List Scene)
    (now : Nat) :
    amFind (handle_scenes_fetched s cid (Except.ok scenes)
        now).scenes_by_chapter_id cid
      = some (mergeScenes scenes
          ((amFind s.scenes_by_chapter_id cid).getD [])) := by
  unfold handle_scenes_fetched mark_scenes_load_finished
  dsimp only
  rw [fallback_pres_sbc]
  split_ifs <;> first
    | exact amFind_amInsert_self _ _ _
    | (split <;> exact amFind_amInsert_self _ _ _)

/-! The concrete micro-example of the specification: fetched collection
with ids A, B (payload version v1) merged with local collection with ids
B (payload v2) and C. -/

def exA1 : Chapter where
  id := "A"
  novel_id := "n"
  title := "v1"
  position := 0
  synopsis := ""
  status := ""
  created_at := 0
  updated_at := 0

def exB1 : Chapter where
  id := "B"
  novel_id := "n"
  title := "v1"
  position := 1
  synopsis := ""
  status := ""
  created_at := 0
  updated_at := 0

def exB2 : Chapter where
  id := "B"
  novel_id := "n"
  title := "v2"
  position := 1
  synopsis := ""
  status := ""
  created_at := 0
  updated_at := 0

def exC1 : Chapter where
  id := "C"
  novel_id := "n"
  title := "v1"
  position := 2
  synopsis := ""
  status := ""
  created_at := 0
  updated_at := 0

lemma apply_ok_core (s : AppState) (nid : String) (chapters : List Chapter)
    (now : Nat) :
    (apply_forge_chapters_ok s nid chapters now).forge_loading_in_progress
      = s.forge_loading_in_progress.erase (ForgeLoadKey.Chapters nid)
    ∧ amFind (apply_forge_chapters_ok s nid chapters
        now).forge_chapters_loaded_for nid = some now
    ∧ amFind (apply_forge_chapters_ok s nid chapters
        now).chapters_by_novel_id nid
      = some (mergeChapters chapters
          ((amFind s.chapters_by_novel_id nid).getD [])) := by
  unfold apply_forge_chapters_ok mark_chapters_load_finished
  dsimp only
  split_ifs <;> first
    | exact ⟨rfl, amFind_amInsert_self _ _ _, amFind_amInsert_self _ _ _⟩
    | (split <;>
        exact ⟨rfl, amFind_amInsert_self _ _ _, amFind_amInsert_self _ _ _⟩)

lemma apply_ok_stale_fields (s : AppState) (nid : String)
    (chapters : List Chapter) (now : Nat)
    (h : ¬ s.active_novel_id = some nid) :
    (apply_forge_chapters_ok s nid chapters now).active_novel_id
      = s.active_novel_id
    ∧ (apply_forge_chapters_ok s nid chapters now).active_novel_chapters
      = s.active_novel_chapters
    ∧ (apply_forge_chapters_ok s nid chapters now).active_chapter_id
      = s.active_chapter_id
    ∧ (apply_forge_chapters_ok s nid chapters now).active_chapter_scenes
      = s.active_chapter_scenes
    ∧ (apply_forge_chapters_ok s nid chapters now).active_scene_id
      = s.active_scene_id
    ∧ (apply_forge_chapters_ok s nid chapters now).novels = s.novels := by
  unfold apply_forge_chapters_ok mark_chapters_load_finished
  dsimp only
  rw [if_neg h]
  exact ⟨rfl, rfl, rfl, rfl, rfl, rfl⟩

/-- C1: for every chapter/scene fetch response the reconciled collection is
the id-keyed map with fetched entities inserted first and local entities
overlaid (local wins on id collision), sorted by id; the result replaces
the tree entry for the scope, and the spec micro-example merges as stated. -/
theorem C1_local_wins_merge :
    (∀ (fetched local_list : List Chapter) (k : String),
      (fetched.map Chapter.id).Nodup → (local_list.map Chapter.id).Nodup →
      entFind Chapter.id (mergeChapters fetched local_list) k
        = oOr (entFind Chapter.id local_list k) (entFind Chapter.id fetched k))
    ∧ (∀ fetched local_list : List Chapter,
      List.Sorted chapLE (mergeChapters fetched local_list))
    ∧ (∀ (s : AppState) (novel_id : String) (fetched local_list : List Chapter)
        (now : Nat),
      amFind s.chapters_by_novel_id novel_id = some local_list →
      amFind (handle_forge_chapters_fetched s novel_id
          (Except.ok fetched) now).chapters_by_novel_id novel_id
        = some (mergeChapters fetched local_list))
    ∧ (∀ (fetched local_list : List Scene) (k : String),
      (fetched.map Scene.id).Nodup → (local_list.map Scene.id).Nodup →
      entFind Scene.id (mergeScenes fetched local_list) k
        = oOr (entFind Scene.id local_list k) (entFind Scene.id fetched k))
    ∧ (∀ fetched local_list : List Scene,
      List.Sorted scnLE (mergeScenes fetched local_list))
    ∧ (∀ (s : AppState) (chapter_id : String) (fetched local_list : List Scene)
        (now : Nat),
      amFind s.scenes_by_chapter_id chapter_id = some local_list →
      amFind (handle_scenes_fetched s chapter_id
          (Except.ok fetched) now).scenes_by_chapter_id chapter_id
        = some (mergeScenes fetched local_list))
    ∧ mergeChapters [exA1, exB1] [exB2, exC1] = [exA1, exB2, exC1] := by
  refine ⟨?_, ?_, ?_, ?_, ?_, ?_, ?_⟩
  · intro fetched local_list k hf hl
    exact mergeChapters_find fetched local_list k hf hl
  · intro fetched local_list
    exact mergeChapters_sorted fetched local_list
  · intro s novel_id fetched local_list now hloc
    unfold handle_forge_chapters_fetched
    dsimp only
    rw [fallback_pres_cbn]
    have h := (apply_ok_core s novel_id fetched now).2.2
    rw [hloc] at h
    simpa using h
  · intro fetched local_list k hf hl
    exact mergeScenes_find fetched local_list k hf hl
  · intro fetched local_list
    exact mergeScenes_sorted fetched local_list
  · intro s chapter_id fetched local_list now hloc
    have h := scenes_ok_entry s chapter_id fetched now
    rw [hloc] at h
    simpa using h
  · simp [mergeChapters, exA1, exB1, exB2, exC1, amInsert,
      List.insertionSort, List.orderedInsert, chapLE]
    all_goals decide

/-- Witness for C1 at the spec's concrete example: both id lists are
duplicate-free, and applying the theorem reproduces the local-wins lookup
for id B together with the handler replacing the tree entry of novel `n`. -/
theorem C1_local_wins_merge_witness :
    ((([exA1, exB1] : List Chapter).map Chapter.id).Nodup
      ∧ (([exB2, exC1] : List Chapter).map Chapter.id).Nodup)
    ∧ entFind Chapter.id (mergeChapters [exA1, exB1] [exB2, exC1]) (exB2.id)
      = oOr (entFind Chapter.id [exB2, exC1] (exB2.id))
          (entFind Chapter.id [exA1, exB1] (exB2.id)) :=
  ⟨⟨by decide, by decide⟩,
    C1_local_wins_merge.1 [exA1, exB1] [exB2, exC1] (exB2.id)
      (by decide) (by decide)⟩

/-! ## C7 / C8 — postconditions of the safe-fallback repair pass.
`novelOk`, `chapterOk`, `sceneOk` are the states the three repair blocks
leave behind; they are exactly the states on which the blocks act as the
identity, which gives both validity (C7) and idempotence (C8). -/

def novelOk (s : AppState) : Prop :=
  (∃ n ∈ s.novels, s.active_novel_id = some n.id) ∨
  (s.novels = [] ∧ s.active_novel_id = none ∧ s.active_novel_chapters = [] ∧
    s.active_chapter_id = none ∧ s.active_chapter_scenes = [] ∧
    s.active_scene_id = none ∧ s.forge_content = "" ∧
    s.forge_last_edit = none ∧ s.forge_debounce_task_id = none)

def chapterOk (s : AppState) : Prop :=
  ∀ nid, s.active_novel_id = some nid →
    nid ∈ s.expanded_novels ∧
    (s.active_novel_chapters = [] →
      amFind s.chapters_by_novel_id nid = none ∨
      amFind s.chapters_by_novel_id nid = some []) ∧
    ((∃ c ∈ s.active_novel_chapters, s.active_chapter_id = some c.id) ∨
      (s.active_novel_chapters = [] ∧ s.active_chapter_id = none ∧
        s.active_chapter_scenes = [] ∧ s.active_scene_id = none ∧
        s.forge_content = "" ∧ s.forge_last_edit = none ∧
        s.forge_debounce_task_id = none))

def sceneOk (s : AppState) : Prop :=
  ∀ cid, s.active_chapter_id = some cid →
    cid ∈ s.expanded_chapters ∧
    (s.active_chapter_scenes = [] →
      amFind s.scenes_by_chapter_id cid = none ∨
      amFind s.scenes_by_chapter_id cid = some []) ∧
    ((∃ sc ∈ s.active_chapter_scenes, s.active_scene_id = some sc.id) ∨
      (s.active_chapter_scenes = [] ∧ s.active_scene_id = none ∧
        s.forge_content = "" ∧ s.forge_last_edit = none ∧
        s.forge_debounce_task_id = none))

lemma novelFix_pres (s : AppState) :
    (fallbackNovelFix s).route = s.route
    ∧ (fallbackNovelFix s).novels = s.novels
    ∧ (fallbackNovelFix s).chapters_by_novel_id = s.chapters_by_novel_id
    ∧ (fallbackNovelFix s).scenes_by_chapter_id = s.scenes_by_chapter_id
    ∧ (fallbackNovelFix s).expanded_novels = s.expanded_novels
    ∧ (fallbackNovelFix s).expanded_chapters = s.expanded_chapters := by
  obtain ⟨a, b, c, d, e, f, g, h, hs⟩ := fallbackNovelFix_skeleton s
  rw [hs]
  exact ⟨rfl, rfl, rfl, rfl, rfl, rfl⟩

lemma chapterStage_pres (s : AppState) :
    (fallbackChapterStage s).route = s.route
    ∧ (fallbackChapterStage s).novels = s.novels
    ∧ (fallbackChapterStage s).active_novel_id = s.active_novel_id
    ∧ (fallbackChapterStage s).chapters_by_novel_id = s.chapters_by_novel_id
    ∧ (fallbackChapterStage s).scenes_by_chapter_id = s.scenes_by_chapter_id
    ∧ (fallbackChapterStage s).expanded_chapters = s.expanded_chapters := by
  obtain ⟨a, b, c, d, e, f, g, h, hs⟩ := fallbackChapterStage_skeleton s
  rw [hs]
  exact ⟨rfl, rfl, rfl, rfl, rfl, rfl⟩

lemma sceneStage_pres (s : AppState) :
    (fallbackSceneStage s).route = s.route
    ∧ (fallbackSceneStage s).novels = s.novels
    ∧ (fallbackSceneStage s).active_novel_id = s.active_novel_id
    ∧ (fallbackSceneStage s).active_novel_chapters = s.active_novel_chapters
    ∧ (fallbackSceneStage s).active_chapter_id = s.active_chapter_id
    ∧ (fallbackSceneStage s).chapters_by_novel_id = s.chapters_by_novel_id
    ∧ (fallbackSceneStage s).scenes_by_chapter_id = s.scenes_by_chapter_id
    ∧ (fallbackSceneStage s).expanded_novels = s.expanded_novels := by
  obtain ⟨a, b, c, d, e, f, hs⟩ := fallbackSceneStage_skeleton s
  rw [hs]
  exact ⟨rfl, rfl, rfl, rfl, rfl, rfl, rfl, rfl⟩

lemma chapterStage_id_of_none (s : AppState)
    (h : s.active_novel_id = none) : fallbackChapterStage s = s := by
  unfold fallbackChapterStage
  rw [h]

lemma sceneStage_id_of_none (s : AppState)
    (h : s.active_chapter_id = none) : fallbackSceneStage s = s := by
  unfold fallbackSceneStage
  rw [h]

lemma chapterStage_ani (s : AppState) :
    (fallbackChapterStage s).active_novel_id = s.active_novel_id := by
  obtain ⟨a, b, c, d, e, f, g, h, hs⟩ := fallbackChapterStage_skeleton s
  rw [hs]

lemma sceneStage_ani (s : AppState) :
    (fallbackSceneStage s).active_novel_id = s.active_novel_id := by
  obtain ⟨a, b, c, d, e, f, hs⟩ := fallbackSceneStage_skeleton s
  rw [hs]

lemma sceneStage_anc (s : AppState) :
    (fallbackSceneStage s).active_novel_chapters = s.active_novel_chapters := by
  obtain ⟨a, b, c, d, e, f, hs⟩ := fallbackSceneStage_skeleton s
  rw [hs]

lemma sceneStage_aci (s : AppState) :
    (fallbackSceneStage s).active_chapter_id = s.active_chapter_id := by
  obtain ⟨a, b, c, d, e, f, hs⟩ := fallbackSceneStage_skeleton s
  rw [hs]

lemma sceneStage_cbn (s : AppState) :
    (fallbackSceneStage s).chapters_by_novel_id = s.chapters_by_novel_id := by
  obtain ⟨a, b, c, d, e, f, hs⟩ := fallbackSceneStage_skeleton s
  rw [hs]

lemma sceneStage_novels (s : AppState) :
    (fallbackSceneStage s).novels = s.novels := by
  obtain ⟨a, b, c, d, e, f, hs⟩ := fallbackSceneStage_skeleton s
  rw [hs]

lemma sceneStage_expnov (s : AppState) :
    (fallbackSceneStage s).expanded_novels = s.expanded_novels := by
  obtain ⟨a, b, c, d, e, f, hs⟩ := fallbackSceneStage_skeleton s
  rw [hs]

lemma chapterStage_novels (s : AppState) :
    (fallbackChapterStage s).novels = s.novels := by
  obtain ⟨a, b, c, d, e, f, g, h, hs⟩ := fallbackChapterStage_skeleton s
  rw [hs]

/-- Block 1 establishes its postcondition on any state. -/
lemma novelFix_estab (s : AppState) : novelOk (fallbackNovelFix s) := by
  unfold fallbackNovelFix cancel_debounce novelOk
  dsimp only
  split_ifs with hc
  · left
    rcases ha : s.active_novel_id with _ | aid
    · rw [ha] at hc
      simp at hc
    · rw [ha] at hc
      simp only [List.any_eq_true, beq_iff_eq] at hc
      obtain ⟨n, hn, hid⟩ := hc
      exact ⟨n, hn, by rw [hid]⟩
  · rcases hn : s.novels with _ | ⟨n, rest⟩
    · right
      exact ⟨rfl, rfl, rfl, rfl, rfl, rfl, rfl, rfl, rfl⟩
    · left
      exact ⟨n, List.mem_cons_self n rest, rfl⟩

/-- Blocks 2-3 establish their postcondition on any state. -/
lemma chapterStage_estab (s : AppState) : chapterOk (fallbackChapterStage s) := by
  unfold fallbackChapterStage cancel_debounce
  generalize ha : s.active_novel_id = oa
  cases oa with
  | none =>
    dsimp only
    intro nid hnid
    rw [ha] at hnid
    cases hnid
  | some nid0 =>
    dsimp only
    by_cases hemp : s.active_novel_chapters.isEmpty = true
    · have hempL : s.active_novel_chapters = [] := by simpa using hemp
      rw [if_pos hemp]
      rcases hf : amFind s.chapters_by_novel_id nid0 with _ | cached
      · dsimp only
        by_cases hex : (match s.active_chapter_id with
            | some cid => s.active_novel_chapters.any (fun c => c.id == cid)
            | none => false) = true
        · exfalso
          rcases haci : s.active_chapter_id with _ | cid <;> rw [haci] at hex
          · simp at hex
          · rw [hempL] at hex
            simp at hex
        · rw [if_neg hex]
          intro nid hnid
          obtain rfl : nid0 = nid := Option.some.inj hnid
          dsimp only
          refine ⟨Finset.mem_insert_self _ _, ?_, ?_⟩
          · intro _
            exact Or.inl hf
          · right
            rw [hempL]
            exact ⟨rfl, rfl, rfl, rfl, rfl, rfl, rfl⟩
      · dsimp only
        by_cases hex : (match s.active_chapter_id with
            | some cid => cached.any (fun c => c.id == cid)
            | none => false) = true
        · rw [if_pos hex]
          intro nid hnid
          obtain rfl : nid0 = nid := Option.some.inj hnid
          dsimp only
          refine ⟨Finset.mem_insert_self _ _, ?_, ?_⟩
          · intro hancE
            right
            rw [hf, hancE]
          · left
            rcases haci : s.active_chapter_id with _ | cid <;> rw [haci] at hex
            · simp at hex
            · simp only [List.any_eq_true, beq_iff_eq] at hex
              obtain ⟨c, hc, hcid⟩ := hex
              exact ⟨c, hc, by rw [hcid]⟩
        · rw [if_neg hex]
          intro nid hnid
          obtain rfl : nid0 = nid := Option.some.inj hnid
          dsimp only
          rcases hcc : cached with _ | ⟨c, crest⟩
          · refine ⟨Finset.mem_insert_self _ _, ?_, ?_⟩
            · intro _
              right
              rw [hcc] at hf
              exact hf
            · right
              exact ⟨rfl, rfl, rfl, rfl, rfl, rfl, rfl⟩
          · refine ⟨Finset.mem_insert_self _ _, ?_, ?_⟩
            · intro habs
              cases habs
            · left
              exact ⟨c, List.mem_cons_self c crest, rfl⟩
    · rw [if_neg hemp]
      dsimp only
      by_cases hex : (match s.active_chapter_id with
          | some cid => s.active_novel_chapters.any (fun c => c.id == cid)
          | none => false) = true
      · rw [if_pos hex]
        intro nid hnid
        obtain rfl : nid0 = nid := Option.some.inj hnid
        dsimp only
        refine ⟨Finset.mem_insert_self _ _, ?_, ?_⟩
        · intro habs
          exact absurd (by rw [habs]; rfl) hemp
        · left
          rcases haci : s.active_chapter_id with _ | cid <;> rw [haci] at hex
          · simp at hex
          · simp only [List.any_eq_true, beq_iff_eq] at hex
            obtain ⟨c, hc, hcid⟩ := hex
            exact ⟨c, hc, by rw [hcid]⟩
      · rw [if_neg hex]
        intro nid hnid
        obtain rfl : nid0 = nid := Option.some.inj hnid
        dsimp only
        rcases hanc : s.active_novel_chapters with _ | ⟨c, crest⟩
        · exact absurd (by rw [hanc]; rfl) hemp
        · refine ⟨Finset.mem_insert_self _ _, ?_, ?_⟩
          · intro habs
            cases habs
          · left
            exact ⟨c, List.mem_cons_self c crest, rfl⟩

/-- Blocks 4-5 establish their postcondition on any state. -/
lemma sceneStage_estab (s : AppState) : sceneOk (fallbackSceneStage s) := by
  unfold fallbackSceneStage cancel_debounce
  generalize ha : s.active_chapter_id = oc
  cases oc with
  | none =>
    dsimp only
    intro cid hcid
    rw [ha] at hcid
    cases hcid
  | some cid0 =>
    dsimp only
    by_cases hemp : s.active_chapter_scenes.isEmpty = true
    · have hempL : s.active_chapter_scenes = [] := by simpa using hemp
      rw [if_pos hemp]
      rcases hf : amFind s.scenes_by_chapter_id cid0 with _ | cached
      · dsimp only
        by_cases hex : (match s.active_scene_id with
            | some sid => s.active_chapter_scenes.any (fun sc => sc.id == sid)
            | none => false) = true
        · exfalso
          rcases hasi : s.active_scene_id with _ | sid <;> rw [hasi] at hex
          · simp at hex
          · rw [hempL] at hex
            simp at hex
        · rw [if_neg hex]
          rw [hempL]
          rw [if_pos (show Option.map Scene.id ([] : List Scene).head? = none from rfl)]
          intro cid hcid
          obtain rfl : cid0 = cid := Option.some.inj hcid
          dsimp only
          refine ⟨Finset.mem_insert_self _ _, ?_, ?_⟩
          · intro _
            exact Or.inl hf
          · right
            exact ⟨rfl, rfl, rfl, rfl, rfl⟩
      · dsimp only
        by_cases hex : (match s.active_scene_id with
            | some sid => cached.any (fun sc => sc.id == sid)
            | none => false) = true
        · rw [if_pos hex]
          intro cid hcid
          obtain rfl : cid0 = cid := Option.some.inj hcid
          dsimp only
          refine ⟨Finset.mem_insert_self _ _, ?_, ?_⟩
          · intro hancE
            right
            rw [hancE] at hf
            exact hf
          · left
            rcases hasi : s.active_scene_id with _ | sid <;> rw [hasi] at hex
            · simp at hex
            · simp only [List.any_eq_true, beq_iff_eq] at hex
              obtain ⟨sc, hsc, hsid⟩ := hex
              exact ⟨sc, hsc, by rw [hsid]⟩
        · rw [if_neg hex]
          rcases hcc : cached with _ | ⟨sc, srest⟩
          · rw [if_pos (show Option.map Scene.id ([] : List Scene).head? = none from rfl)]
            intro cid hcid
            obtain rfl : cid0 = cid := Option.some.inj hcid
            dsimp only
            refine ⟨Finset.mem_insert_self _ _, ?_, ?_⟩
            · intro _
              right
              rw [hcc] at hf
              exact hf
            · right
              exact ⟨rfl, rfl, rfl, rfl, rfl⟩
          · rw [if_neg (show ¬ Option.map Scene.id (sc :: srest).head? = none by simp)]
            intro cid hcid
            obtain rfl : cid0 = cid := Option.some.inj hcid
            dsimp only
            refine ⟨Finset.mem_insert_self _ _, ?_, ?_⟩
            · intro habs
              cases habs
            · left
              exact ⟨sc, List.mem_cons_self sc srest, rfl⟩
    · rw [if_neg hemp]
      dsimp only
      by_cases hex : (match s.active_scene_id with
          | some sid => s.active_chapter_scenes.any (fun sc => sc.id == sid)
          | none => false) = true
      · rw [if_pos hex]
        intro cid hcid
        obtain rfl : cid0 = cid := Option.some.inj hcid
        dsimp only
        refine ⟨Finset.mem_insert_self _ _, ?_, ?_⟩
        · intro habs
          exact absurd (by rw [habs]; rfl) hemp
        · left
          rcases hasi : s.active_scene_id with _ | sid <;> rw [hasi] at hex
          · simp at hex
          · simp only [List.any_eq_true, beq_iff_eq] at hex
            obtain ⟨sc, hsc, hsid⟩ := hex
            exact ⟨sc, hsc, by rw [hsid]⟩
      · rw [if_neg hex]
        rcases hanc : s.active_chapter_scenes with _ | ⟨sc, srest⟩
        · exact absurd (by rw [hanc]; rfl) hemp
        · split_ifs with hscn
          · exact absurd hscn (by simp)
          intro cid hcid
          obtain rfl : cid0 = cid := Option.some.inj hcid
          dsimp only
          refine ⟨Finset.mem_insert_self _ _, ?_, ?_⟩
          · intro habs
            cases habs
          · left
            exact ⟨sc, List.mem_cons_self sc srest, rfl⟩

/-- Block 1 is the identity on states satisfying its postcondition. -/
lemma novelFix_id (s : AppState) (h : novelOk s) : fallbackNovelFix s = s := by
  unfold fallbackNovelFix cancel_debounce
  dsimp only
  rcases h with ⟨n, hn, ha⟩ | ⟨h1, h2, h3, h4, h5, h6, h7, h8, h9⟩
  · have hc : (match s.active_novel_id with
        | some id => s.novels.any (fun x => x.id == id)
        | none => false) = true := by
      rw [ha]
      exact List.any_eq_true.2 ⟨n, hn, by simp⟩
    rw [if_pos hc]
  · split_ifs with hc
    · rfl
    · apply AppState.ext <;>
        first
          | rfl
          | simp [h1, h2, h3, h4, h5, h6, h7, h8, h9]

/-- Blocks 2-3 are the identity on states satisfying their postcondition. -/
lemma chapterStage_id (s : AppState) (h : chapterOk s) :
    fallbackChapterStage s = s := by
  unfold fallbackChapterStage cancel_debounce
  generalize ha : s.active_novel_id = oa
  cases oa with
  | none =>
    dsimp only
  | some nid0 =>
    obtain ⟨hexp, hhyd, hok⟩ := h nid0 ha
    dsimp only
    rw [Finset.insert_eq_self.2 hexp]
    rcases hok with ⟨c, hc, haci⟩ | ⟨hancE, haciN, hacsE, hasiN, hcontE, hleN, htiN⟩
    · have hemp : ¬ s.active_novel_chapters.isEmpty = true := by
        intro hh
        rw [List.isEmpty_iff.1 hh] at hc
        cases hc
      rw [if_neg hemp]
      have hcond : (match s.active_chapter_id with
          | some cid => s.active_novel_chapters.any (fun x => x.id == cid)
          | none => false) = true := by
        rw [haci]
        exact List.any_eq_true.2 ⟨c, hc, by simp⟩
      rw [if_pos hcond]
      apply AppState.ext <;> first | rfl | exact ha.symm
    · have hemp : s.active_novel_chapters.isEmpty = true := by
        rw [hancE]
        rfl
      rw [if_pos hemp]
      rcases hhyd hancE with hf | hf <;> rw [hf] <;> dsimp only <;>
        split_ifs with hcx
      · rw [haciN] at hcx
        simp at hcx
      · apply AppState.ext <;>
          first
            | rfl
            | exact ha.symm
            | simp [hancE, haciN, hacsE, hasiN, hcontE, hleN, htiN]
      · rw [haciN] at hcx
        simp at hcx
      · apply AppState.ext <;>
          first
            | rfl
            | exact ha.symm
            | simp [hancE, haciN, hacsE, hasiN, hcontE, hleN, htiN]

/-- Blocks 4-5 are the identity on states satisfying their postcondition. -/
lemma sceneStage_id (s : AppState) (h : sceneOk s) :
    fallbackSceneStage s = s := by
  unfold fallbackSceneStage cancel_debounce
  generalize ha : s.active_chapter_id = oc
  cases oc with
  | none =>
    dsimp only
  | some cid0 =>
    obtain ⟨hexp, hhyd, hok⟩ := h cid0 ha
    dsimp only
    rw [Finset.insert_eq_self.2 hexp]
    rcases hok with ⟨sc, hsc, hasi⟩ | ⟨hacsE, hasiN, hcontE, hleN, htiN⟩
    · have hemp : ¬ s.active_chapter_scenes.isEmpty = true := by
        intro hh
        rw [List.isEmpty_iff.1 hh] at hsc
        cases hsc
      rw [if_neg hemp]
      have hcond : (match s.active_scene_id with
          | some sid => s.active_chapter_scenes.any (fun x => x.id == sid)
          | none => false) = true := by
        rw [hasi]
        exact List.any_eq_true.2 ⟨sc, hsc, by simp⟩
      rw [if_pos hcond]
      apply AppState.ext <;> first | rfl | exact ha.symm
    · have hemp : s.active_chapter_scenes.isEmpty = true := by
        rw [hacsE]
        rfl
      rw [if_pos hemp]
      rcases hhyd hacsE with hf | hf <;> rw [hf] <;> dsimp only <;>
        split_ifs with hcx
      · rw [hasiN] at hcx
        simp at hcx
      all_goals (apply AppState.ext <;>
        first
          | rfl
          | exact ha.symm
          | simp [hacsE, hasiN, hcontE, hleN, htiN])

lemma chapterStage_pres_novelOk (s : AppState) (h : novelOk s) :
    novelOk (fallbackChapterStage s) := by
  rcases h with ⟨n, hn, ha⟩ | h2
  · left
    refine ⟨n, ?_, ?_⟩
    · rw [chapterStage_novels]
      exact hn
    · rw [chapterStage_ani]
      exact ha
  · rw [chapterStage_id_of_none s h2.2.1]
    exact Or.inr h2

lemma sceneStage_pres_novelOk (s : AppState) (h : novelOk s) :
    novelOk (fallbackSceneStage s) := by
  rcases h with ⟨n, hn, ha⟩ | h2
  · left
    refine ⟨n, ?_, ?_⟩
    · rw [sceneStage_novels]
      exact hn
    · rw [sceneStage_ani]
      exact ha
  · rw [sceneStage_id_of_none s h2.2.2.2.1]
    exact Or.inr h2

lemma sceneStage_pres_chapterOk (s : AppState) (h : chapterOk s) :
    chapterOk (fallbackSceneStage s) := by
  by_cases hch : s.active_chapter_id = none
  · rw [sceneStage_id_of_none s hch]
    exact h
  · intro nid hnid
    rw [sceneStage_ani] at hnid
    obtain ⟨hexp, hhyd, hok⟩ := h nid hnid
    refine ⟨?_, ?_, ?_⟩
    · rw [sceneStage_expnov]
      exact hexp
    · rw [sceneStage_anc, sceneStage_cbn]
      exact hhyd
    · rcases hok with hv | hcl
      · left
        rw [sceneStage_anc, sceneStage_aci]
        exact hv
      · exact absurd hcl.2.1 hch

/-- C8: the safe-fallback repair pass is idempotent — running it twice in
a row produces exactly the same state as running it once. -/
theorem C8_selection_repair_idempotent (s : AppState) :
    ensure_forge_safe_fallback (ensure_forge_safe_fallback s) =
      ensure_forge_safe_fallback s := by
  by_cases hr : s.route ≠ Route.Forge
  · have h1 : ensure_forge_safe_fallback s = s := by
      unfold ensure_forge_safe_fallback
      rw [if_pos hr]
    rw [h1, h1]
  · have hs1 : ensure_forge_safe_fallback s =
        fallbackSceneStage (fallbackChapterStage (fallbackNovelFix s)) := by
      unfold ensure_forge_safe_fallback
      rw [if_neg hr]
    have hN : novelOk
        (fallbackSceneStage (fallbackChapterStage (fallbackNovelFix s))) :=
      sceneStage_pres_novelOk _
        (chapterStage_pres_novelOk _ (novelFix_estab s))
    have hC : chapterOk
        (fallbackSceneStage (fallbackChapterStage (fallbackNovelFix s))) :=
      sceneStage_pres_chapterOk _ (chapterStage_estab (fallbackNovelFix s))
    have hS : sceneOk
        (fallbackSceneStage (fallbackChapterStage (fallbackNovelFix s))) :=
      sceneStage_estab _
    have hroute :
        (fallbackSceneStage (fallbackChapterStage (fallbackNovelFix s))).route
          = s.route := by
      have h := (fallback_untouched s).1
      rw [hs1] at h
      exact h
    calc ensure_forge_safe_fallback (ensure_forge_safe_fallback s)
        = ensure_forge_safe_fallback
            (fallbackSceneStage (fallbackChapterStage (fallbackNovelFix s))) := by
          rw [hs1]
      _ = fallbackSceneStage (fallbackChapterStage (fallbackNovelFix
            (fallbackSceneStage (fallbackChapterStage (fallbackNovelFix s))))) := by
          unfold ensure_forge_safe_fallback
          rw [if_neg (show ¬ (fallbackSceneStage (fallbackChapterStage
            (fallbackNovelFix s))).route ≠ Route.Forge by rw [hroute]; exact hr)]
      _ = fallbackSceneStage (fallbackChapterStage (fallbackNovelFix s)) := by
          rw [novelFix_id _ hN, chapterStage_id _ hC, sceneStage_id _ hS]
      _ = ensure_forge_safe_fallback s := hs1.symm

lemma novelFix_ani_of_invalid (s : AppState)
    (h : ¬ ∃ n ∈ s.novels, s.active_novel_id = some n.id) :
    (fallbackNovelFix s).active_novel_id = s.novels.head?.map Novel.id := by
  unfold fallbackNovelFix cancel_debounce
  dsimp only
  split_ifs with hc
  · exfalso
    apply h
    rcases ha : s.active_novel_id with _ | aid <;> rw [ha] at hc
    · simp at hc
    · simp only [List.any_eq_true, beq_iff_eq] at hc
      obtain ⟨n, hn, hid⟩ := hc
      exact ⟨n, hn, by rw [hid]⟩
  · rfl

/-- C7: after the safe-fallback repair pass on the Forge route, every
selection pointer references an existing entity or is `none`; and an
invalid novel selection is reset to the first novel (or `none`). -/
theorem C7_dangling_selection_eliminated (s : AppState)
    (hr : s.route = Route.Forge) :
    ((ensure_forge_safe_fallback s).active_novel_id = none ∨
      ∃ n ∈ (ensure_forge_safe_fallback s).novels,
        (ensure_forge_safe_fallback s).active_novel_id = some n.id)
    ∧ ((ensure_forge_safe_fallback s).active_chapter_id = none ∨
      ∃ c ∈ (ensure_forge_safe_fallback s).active_novel_chapters,
        (ensure_forge_safe_fallback s).active_chapter_id = some c.id)
    ∧ ((ensure_forge_safe_fallback s).active_scene_id = none ∨
      ∃ sc ∈ (ensure_forge_safe_fallback s).active_chapter_scenes,
        (ensure_forge_safe_fallback s).active_scene_id = some sc.id)
    ∧ ((¬ ∃ n ∈ s.novels, s.active_novel_id = some n.id) →
      (ensure_forge_safe_fallback s).active_novel_id =
        s.novels.head?.map Novel.id) := by
  have hrn : ¬ s.route ≠ Route.Forge := fun hh => hh hr
  have hs1 : ensure_forge_safe_fallback s =
      fallbackSceneStage (fallbackChapterStage (fallbackNovelFix s)) := by
    unfold ensure_forge_safe_fallback
    rw [if_neg hrn]
  have hN : novelOk (ensure_forge_safe_fallback s) := by
    rw [hs1]
    exact sceneStage_pres_novelOk _
      (chapterStage_pres_novelOk _ (novelFix_estab s))
  have hC : chapterOk (ensure_forge_safe_fallback s) := by
    rw [hs1]
    exact sceneStage_pres_chapterOk _ (chapterStage_estab (fallbackNovelFix s))
  have hS : sceneOk (ensure_forge_safe_fallback s) := by
    rw [hs1]
    exact sceneStage_estab _
  refine ⟨?_, ?_, ?_, ?_⟩
  · rcases hN with ⟨n, hn, ha⟩ | h2
    · exact Or.inr ⟨n, hn, ha⟩
    · exact Or.inl h2.2.1
  · rcases ht : (ensure_forge_safe_fallback s).active_chapter_id with _ | cid
    · exact Or.inl rfl
    · rcases hN with ⟨n, hn, ha⟩ | h2
      · rcases (hC n.id ha).2.2 with hv | hcl
        · rw [ht] at hv
          exact Or.inr hv
        · rw [hcl.2.1] at ht
          cases ht
      · rw [h2.2.2.2.1] at ht
        cases ht
  · rcases ht2 : (ensure_forge_safe_fallback s).active_scene_id with _ | sid
    · exact Or.inl rfl
    · rcases hN with ⟨n, hn, ha⟩ | h2
      · rcases (hC n.id ha).2.2 with ⟨c, hc, haci⟩ | hcl
        · rcases (hS c.id haci).2.2 with hv | hcl2
          · rw [ht2] at hv
            exact Or.inr hv
          · rw [hcl2.2.1] at ht2
            cases ht2
        · rw [hcl.2.2.2.1] at ht2
          cases ht2
      · rw [h2.2.2.2.2.2.1] at ht2
        cases ht2
  · intro hinv
    rw [hs1, sceneStage_ani, chapterStage_ani]
    exact novelFix_ani_of_invalid s hinv

/-- Witness for C7: a Forge-route state whose selections all dangle is
repaired to valid (here: empty) selections. -/
theorem C7_dangling_selection_eliminated_witness :
    ({ baseState with route := Route.Forge } : AppState).route = Route.Forge
    ∧ (((ensure_forge_safe_fallback { baseState with route := Route.Forge }).active_novel_id = none ∨
      ∃ n ∈ (ensure_forge_safe_fallback { baseState with route := Route.Forge }).novels,
        (ensure_forge_safe_fallback { baseState with route := Route.Forge }).active_novel_id = some n.id)
    ∧ ((ensure_forge_safe_fallback { baseState with route := Route.Forge }).active_chapter_id = none ∨
      ∃ c ∈ (ensure_forge_safe_fallback { baseState with route := Route.Forge }).active_novel_chapters,
        (ensure_forge_safe_fallback { baseState with route := Route.Forge }).active_chapter_id = some c.id)
    ∧ ((ensure_forge_safe_fallback { baseState with route := Route.Forge }).active_scene_id = none ∨
      ∃ sc ∈ (ensure_forge_safe_fallback { baseState with route := Route.Forge }).active_chapter_scenes,
        (ensure_forge_safe_fallback { baseState with route := Route.Forge }).active_scene_id = some sc.id)
    ∧ ((¬ ∃ n ∈ ({ baseState with route := Route.Forge } : AppState).novels,
        ({ baseState with route := Route.Forge } : AppState).active_novel_id = some n.id) →
      (ensure_forge_safe_fallback { baseState with route := Route.Forge }).active_novel_id =
        ({ baseState with route := Route.Forge } : AppState).novels.head?.map Novel.id)) :=
  ⟨rfl, C7_dangling_selection_eliminated { baseState with route := Route.Forge } rfl⟩

/-! ## C3 — failure semantics of fetch error handlers.
The forge scene/chapter error handlers call `mark_*_load_finished`, which
removes the gating key but ALSO records the completion time in the
per-scope `loaded_for` map — contradicting the claim that a failed fetch
never updates the last-load timestamp. The core handlers (creatures and
friends) do behave as claimed. -/

/-- C3 counterexample: a scene fetch that completes with an error at the
base state updates `forge_scenes_loaded_for` for its chapter scope. -/
theorem C3_counterexample :
    (handle_scenes_fetched baseState ("c1") (Except.error ("boom"))
        7).forge_scenes_loaded_for
      ≠ baseState.forge_scenes_loaded_for := by
  decide

/-- C3 (amended): every embedded fetch-error handler — forge scenes,
forge chapters, forge novels, and the core universes, boards, pm board,
creatures, locations, timeline and snapshots handlers — releases its
gating key and leaves the entity collections untouched. The core handlers
and the forge novels handler also leave the last-load bookkeeping
untouched, while the forge scene/chapter error handlers record the
completion time in the per-scope loaded-for map, so a re-fetch happens
only after the throttle window from the failed completion. -/
theorem C3_error_releases_gating_amended :
    (∀ (s : AppState) (cid e : String) (now : Nat),
      ForgeLoadKey.Scenes cid ∉
        (handle_scenes_fetched s cid (Except.error e) now).forge_loading_in_progress
      ∧ amFind (handle_scenes_fetched s cid
          (Except.error e) now).forge_scenes_loaded_for cid = some now
      ∧ (handle_scenes_fetched s cid (Except.error e) now).scenes_by_chapter_id
          = s.scenes_by_chapter_id
      ∧ (handle_scenes_fetched s cid (Except.error e) now).active_chapter_scenes
          = s.active_chapter_scenes)
    ∧ (∀ (s : AppState) (nid e : String) (now : Nat),
      ForgeLoadKey.Chapters nid ∉
        (handle_forge_chapters_fetched s nid (Except.error e) now).forge_loading_in_progress
      ∧ amFind (handle_forge_chapters_fetched s nid
          (Except.error e) now).forge_chapters_loaded_for nid = some now
      ∧ (handle_forge_chapters_fetched s nid (Except.error e) now).chapters_by_novel_id
          = s.chapters_by_novel_id
      ∧ (handle_forge_chapters_fetched s nid (Except.error e) now).active_novel_chapters
          = s.active_novel_chapters)
    ∧ (∀ (s : AppState) (uid e : String) (now : Nat),
      CoreLoadKey.Creatures uid ∉
        (handle_creatures_fetched s uid (Except.error e) now).core_loading_in_progress
      ∧ (handle_creatures_fetched s uid (Except.error e) now).creatures = s.creatures
      ∧ (handle_creatures_fetched s uid (Except.error e) now).loaded_creatures_universe
          = s.loaded_creatures_universe
      ∧ (handle_creatures_fetched s uid (Except.error e) now).core_creatures_loaded_for
          = s.core_creatures_loaded_for)
    ∧ (∀ (s : AppState) (e : String),
      CoreLoadKey.UniversesList ∉
        (handle_universes_fetched s (Except.error e)).core_loading_in_progress
      ∧ (handle_universes_fetched s (Except.error e)).universes = s.universes
      ∧ (handle_universes_fetched s (Except.error e)).last_universes_reload
          = s.last_universes_reload)
    ∧ (∀ (s : AppState) (e : String),
      CoreLoadKey.BoardsList ∉
        (handle_boards_fetched s (Except.error e)).core_loading_in_progress
      ∧ (handle_boards_fetched s (Except.error e)).boards_list = s.boards_list
      ∧ (handle_boards_fetched s (Except.error e)).last_boards_reload
          = s.last_boards_reload)
    ∧ (∀ (s : AppState) (bid e : String) (now : Nat),
      CoreLoadKey.PmBoard bid ∉
        (handle_pm_board_fetched s bid (Except.error e) now).core_loading_in_progress
      ∧ (handle_pm_board_fetched s bid (Except.error e) now).pm_data = s.pm_data
      ∧ (handle_pm_board_fetched s bid (Except.error e) now).pm_board_loaded_for
          = s.pm_board_loaded_for)
    ∧ (∀ (s : AppState) (uid e : String) (now : Nat),
      CoreLoadKey.Locations uid ∉
        (handle_locations_fetched s uid (Except.error e) now).core_loading_in_progress
      ∧ (handle_locations_fetched s uid (Except.error e) now).locations = s.locations
      ∧ (handle_locations_fetched s uid (Except.error e) now).loaded_locations_universe
          = s.loaded_locations_universe
      ∧ (handle_locations_fetched s uid (Except.error e) now).core_locations_loaded_for
          = s.core_locations_loaded_for)
    ∧ (∀ (s : AppState) (uid e : String) (now : Nat),
      CoreLoadKey.Timeline uid ∉
        (handle_timeline_fetched s uid (Except.error e) now).core_loading_in_progress
      ∧ (handle_timeline_fetched s uid (Except.error e) now).timeline_events
          = s.timeline_events
      ∧ (handle_timeline_fetched s uid (Except.error e) now).timeline_eras
          = s.timeline_eras
      ∧ (handle_timeline_fetched s uid (Except.error e) now).loaded_timeline_universe
          = s.loaded_timeline_universe
      ∧ (handle_timeline_fetched s uid (Except.error e) now).core_timeline_loaded_for
          = s.core_timeline_loaded_for)
    ∧ (∀ (s : AppState) (uid e : String) (now : Nat),
      CoreLoadKey.Snapshots uid ∉
        (handle_snapshots_fetched s uid (Except.error e) now).core_loading_in_progress
      ∧ (handle_snapshots_fetched s uid (Except.error e) now).snapshots = s.snapshots
      ∧ (handle_snapshots_fetched s uid (Except.error e) now).loaded_snapshots_universe
          = s.loaded_snapshots_universe
      ∧ (handle_snapshots_fetched s uid (Except.error e) now).core_snapshots_loaded_for
          = s.core_snapshots_loaded_for)
    ∧ (∀ (s : AppState) (e : String),
      ForgeLoadKey.Novels ∉
        (handle_novels_fetched s (Except.error e)).forge_loading_in_progress
      ∧ (handle_novels_fetched s (Except.error e)).novels = s.novels
      ∧ (handle_novels_fetched s (Except.error e)).last_novels_reload
          = s.last_novels_reload) := by
  refine ⟨?_, ?_, ?_, ?_, ?_, ?_, ?_, ?_, ?_, ?_⟩
  · intro s cid e now
    unfold handle_scenes_fetched mark_scenes_load_finished show_toast
    dsimp only
    split_ifs <;>
      exact ⟨Finset.not_mem_erase _ _, amFind_amInsert_self _ _ _, rfl, rfl⟩
  · intro s nid e now
    unfold handle_forge_chapters_fetched mark_chapters_load_finished show_toast
    dsimp only
    split_ifs <;>
      exact ⟨Finset.not_mem_erase _ _, amFind_amInsert_self _ _ _, rfl, rfl⟩
  · intro s uid e now
    unfold handle_creatures_fetched show_toast
    dsimp only
    split_ifs <;>
      exact ⟨Finset.not_mem_erase _ _, rfl, rfl, rfl⟩
  · intro s e
    unfold handle_universes_fetched show_toast
    dsimp only
    exact ⟨Finset.not_mem_erase _ _, rfl, rfl⟩
  · intro s e
    unfold handle_boards_fetched show_toast
    dsimp only
    exact ⟨Finset.not_mem_erase _ _, rfl, rfl⟩
  · intro s bid e now
    unfold handle_pm_board_fetched show_toast
    dsimp only
    split_ifs <;>
      exact ⟨Finset.not_mem_erase _ _, rfl, rfl⟩
  · intro s uid e now
    unfold handle_locations_fetched show_toast
    dsimp only
    split_ifs <;>
      exact ⟨Finset.not_mem_erase _ _, rfl, rfl, rfl⟩
  · intro s uid e now
    unfold handle_timeline_fetched show_toast
    dsimp only
    split_ifs <;>
      exact ⟨Finset.not_mem_erase _ _, rfl, rfl, rfl, rfl⟩
  · intro s uid e now
    unfold handle_snapshots_fetched show_toast
    dsimp only
    split_ifs <;>
      exact ⟨Finset.not_mem_erase _ _, rfl, rfl, rfl⟩
  · intro s e
    unfold handle_novels_fetched mark_novels_load_finished show_toast
    dsimp only
    exact ⟨Finset.not_mem_erase _ _, rfl, rfl⟩

/-! ## C5 — stale responses. The core handlers discard data on a
scope mismatch; the forge chapter/scene handlers instead cache the data in
the per-scope tree and stamp loaded-for, touching neither the active view
nor the selection. -/

lemma chapterStage_valid (X : AppState) (nid : String)
    (ha : X.active_novel_id = some nid)
    (hval : ∃ c ∈ X.active_novel_chapters, X.active_chapter_id = some c.id) :
    fallbackChapterStage X =
      { X with expanded_novels := insert nid X.expanded_novels } := by
  obtain ⟨c, hc1, hc2⟩ := hval
  unfold fallbackChapterStage
  rw [ha]
  dsimp only
  have hemp : ¬ X.active_novel_chapters.isEmpty = true := by
    intro hh
    rw [List.isEmpty_iff.1 hh] at hc1
    cases hc1
  rw [if_neg hemp]
  have hcond : (match X.active_chapter_id with
      | some cid => X.active_novel_chapters.any (fun x => x.id == cid)
      | none => false) = true := by
    rw [hc2]
    exact List.any_eq_true.2 ⟨c, hc1, by simp⟩
  rw [if_pos hcond]

lemma sceneStage_valid (X : AppState) (cid : String)
    (ha : X.active_chapter_id = some cid)
    (hval : ∃ sc ∈ X.active_chapter_scenes, X.active_scene_id = some sc.id) :
    fallbackSceneStage X =
      { X with expanded_chapters := insert cid X.expanded_chapters } := by
  obtain ⟨sc, hs1, hs2⟩ := hval
  unfold fallbackSceneStage
  rw [ha]
  dsimp only
  have hemp : ¬ X.active_chapter_scenes.isEmpty = true := by
    intro hh
    rw [List.isEmpty_iff.1 hh] at hs1
    cases hs1
  rw [if_neg hemp]
  have hcond : (match X.active_scene_id with
      | some sid => X.active_chapter_scenes.any (fun x => x.id == sid)
      | none => false) = true := by
    rw [hs2]
    exact List.any_eq_true.2 ⟨sc, hs1, by simp⟩
  rw [if_pos hcond]

/-- On a fully valid Forge selection, the repair pass only marks the
active novel and chapter expanded; every selection field is untouched. -/
lemma fallback_valid_fields (X : AppState)
    (hn : ∃ n ∈ X.novels, X.active_novel_id = some n.id)
    (hc : ∃ c ∈ X.active_novel_chapters, X.active_chapter_id = some c.id)
    (hs : ∃ sc ∈ X.active_chapter_scenes, X.active_scene_id = some sc.id) :
    (ensure_forge_safe_fallback X).active_novel_id = X.active_novel_id
    ∧ (ensure_forge_safe_fallback X).active_novel_chapters = X.active_novel_chapters
    ∧ (ensure_forge_safe_fallback X).active_chapter_id = X.active_chapter_id
    ∧ (ensure_forge_safe_fallback X).active_chapter_scenes = X.active_chapter_scenes
    ∧ (ensure_forge_safe_fallback X).active_scene_id = X.active_scene_id := by
  unfold ensure_forge_safe_fallback
  split_ifs
  · exact ⟨rfl, rfl, rfl, rfl, rfl⟩
  · obtain ⟨n, hn1, hn2⟩ := hn
    rw [novelFix_id X (Or.inl ⟨n, hn1, hn2⟩)]
    rw [chapterStage_valid X n.id hn2 hc]
    obtain ⟨c, hc1, hc2⟩ := hc
    rw [sceneStage_valid
      ({ X with expanded_novels := insert n.id X.expanded_novels }) c.id hc2 hs]
    exact ⟨rfl, rfl, rfl, rfl, rfl⟩

def exNovel2 : Novel where
  id := "n2"
  universe_id := some ("u1")
  title := "second"
  synopsis := ""
  status := ""
  created_at := 0
  updated_at := 0

def exChN1 : Chapter where
  id := "ch1"
  novel_id := "n1"
  title := "stale payload"
  position := 0
  synopsis := ""
  status := ""
  created_at := 0
  updated_at := 0

def exChN2 : Chapter where
  id := "c2"
  novel_id := "n2"
  title := "current chapter"
  position := 0
  synopsis := ""
  status := ""
  created_at := 0
  updated_at := 0

def exSc2 : Scene where
  id := "s2"
  chapter_id := "c2"
  title := "current scene"
  body := ""
  position := 0
  status := ""
  word_count := 0
  created_at := 0
  updated_at := 0

/-- A Forge-route state whose active selection (novel n2 → chapter c2 →
scene s2) is fully valid, used as the receiver of a stale chapter fetch
for the non-active novel n1. -/
def c5StaleState : AppState :=
  { baseState with
    route := Route.Forge
    novels := [exNovel2]
    active_novel_id := some ("n2")
    active_novel_chapters := [exChN2]
    active_chapter_id := some ("c2")
    active_chapter_scenes := [exSc2]
    active_scene_id := some ("s2") }

/-- C5 counterexample: a chapter fetch response for novel n1 arriving
while novel n2 is active (scope mismatch) nevertheless changes both the
per-scope collection (tree entry of n1) and the loaded-for marker of n1 —
the claim that both keep their current values for every scoped fetch is
false for the forge chapter handler. -/
theorem C5_counterexample :
    c5StaleState.active_novel_id ≠ some ("n1")
    ∧ amFind (handle_forge_chapters_fetched c5StaleState ("n1")
        (Except.ok [exChN1]) 7).forge_chapters_loaded_for ("n1")
      ≠ amFind c5StaleState.forge_chapters_loaded_for ("n1")
    ∧ amFind (handle_forge_chapters_fetched c5StaleState ("n1")
        (Except.ok [exChN1]) 7).chapters_by_novel_id ("n1")
      ≠ amFind c5StaleState.chapters_by_novel_id ("n1") := by
  decide

/-- C5 (amended): on a scope mismatch the gating key is released for both
terminal outcomes. The core creatures handler applies nothing at all: on
Ok the collection, the loaded-universe marker and the loaded-for map keep
their values (conjunct 1), and on Err the handler is exactly the
gating-key removal (conjunct 4). The forge chapter handler instead caches
the merged data in the per-scope tree entry and stamps that scope's
loaded-for time: on Ok (conjunct 2) the data application touches neither
the active view lists nor the selection pointers — stated for states whose
novel→chapter→scene selection is valid, because the handler ends with the
safe-fallback repair pass, which is the identity on valid selections and
repairs dangling ones (the C7 property); on Err (conjunct 3) the handler
is exactly `mark_chapters_load_finished`: gating released and loaded-for
stamped, nothing else changed. -/
theorem C5_stale_response_amended :
    (∀ (s : AppState) (uid : String) (v : List Creature) (now : Nat),
      s.route ≠ Route.Bestiary uid →
      CoreLoadKey.Creatures uid ∉
        (handle_creatures_fetched s uid (Except.ok v) now).core_loading_in_progress
      ∧ (handle_creatures_fetched s uid (Except.ok v) now).creatures = s.creatures
      ∧ (handle_creatures_fetched s uid (Except.ok v) now).loaded_creatures_universe
          = s.loaded_creatures_universe
      ∧ (handle_creatures_fetched s uid (Except.ok v) now).core_creatures_loaded_for
          = s.core_creatures_loaded_for)
    ∧ (∀ (s : AppState) (nid n2 : String) (fetched : List Chapter) (now : Nat),
      s.route = Route.Forge →
      s.active_novel_id = some n2 →
      n2 ≠ nid →
      (∃ n ∈ s.novels, s.active_novel_id = some n.id) →
      (∃ c ∈ s.active_novel_chapters, s.active_chapter_id = some c.id) →
      (∃ sc ∈ s.active_chapter_scenes, s.active_scene_id = some sc.id) →
      ForgeLoadKey.Chapters nid ∉
        (handle_forge_chapters_fetched s nid (Except.ok fetched) now).forge_loading_in_progress
      ∧ amFind (handle_forge_chapters_fetched s nid
          (Except.ok fetched) now).forge_chapters_loaded_for nid = some now
      ∧ amFind (handle_forge_chapters_fetched s nid
          (Except.ok fetched) now).chapters_by_novel_id nid
          = some (mergeChapters fetched ((amFind s.chapters_by_novel_id nid).getD []))
      ∧ (handle_forge_chapters_fetched s nid (Except.ok fetched) now).active_novel_id
          = s.active_novel_id
      ∧ (handle_forge_chapters_fetched s nid (Except.ok fetched) now).active_novel_chapters
          = s.active_novel_chapters
      ∧ (handle_forge_chapters_fetched s nid (Except.ok fetched) now).active_chapter_id
          = s.active_chapter_id
      ∧ (handle_forge_chapters_fetched s nid (Except.ok fetched) now).active_chapter_scenes
          = s.active_chapter_scenes
      ∧ (handle_forge_chapters_fetched s nid (Except.ok fetched) now).active_scene_id
          = s.active_scene_id)
    ∧ (∀ (s : AppState) (nid e : String) (now : Nat),
      ¬ s.active_novel_id = some nid →
      handle_forge_chapters_fetched s nid (Except.error e) now
        = mark_chapters_load_finished s nid now)
    ∧ (∀ (s : AppState) (uid e : String) (now : Nat),
      s.route ≠ Route.Bestiary uid →
      handle_creatures_fetched s uid (Except.error e) now
        = { s with core_loading_in_progress :=
            s.core_loading_in_progress.erase (CoreLoadKey.Creatures uid) }) := by
  refine ⟨?_, ?_, ?_, ?_⟩
  · intro s uid v now hroute
    unfold handle_creatures_fetched
    dsimp only
    rw [if_neg (show ¬ ({ s with core_loading_in_progress :=
        s.core_loading_in_progress.erase (CoreLoadKey.Creatures uid) } :
          AppState).route = Route.Bestiary uid from hroute)]
    exact ⟨Finset.not_mem_erase _ _, rfl, rfl, rfl⟩
  · intro s nid n2 fetched now hroute hani hne hnval hcval hsval
    unfold handle_forge_chapters_fetched
    dsimp only
    have hstale : ¬ s.active_novel_id = some nid := by
      rw [hani]
      intro hh
      exact hne (Option.some.inj hh)
    obtain ⟨hani2, hanc2, haci2, hacs2, hasi2, hnov2⟩ :=
      apply_ok_stale_fields s nid fetched now hstale
    have hcore := apply_ok_core s nid fetched now
    have hnval2 : ∃ n ∈ (apply_forge_chapters_ok s nid fetched now).novels,
        (apply_forge_chapters_ok s nid fetched now).active_novel_id
          = some n.id := by
      rw [hnov2, hani2]
      exact hnval
    have hcval2 : ∃ c ∈ (apply_forge_chapters_ok s nid fetched
        now).active_novel_chapters,
        (apply_forge_chapters_ok s nid fetched now).active_chapter_id
          = some c.id := by
      rw [hanc2, haci2]
      exact hcval
    have hsval2 : ∃ sc ∈ (apply_forge_chapters_ok s nid fetched
        now).active_chapter_scenes,
        (apply_forge_chapters_ok s nid fetched now).active_scene_id
          = some sc.id := by
      rw [hacs2, hasi2]
      exact hsval
    have hvf := fallback_valid_fields
      (apply_forge_chapters_ok s nid fetched now) hnval2 hcval2 hsval2
    refine ⟨?_, ?_, ?_, ?_, ?_, ?_, ?_, ?_⟩
    · rw [(fallback_untouched _).2.2.2.2.1, hcore.1]
      exact Finset.not_mem_erase _ _
    · rw [(fallback_untouched _).2.2.2.2.2.1]
      exact hcore.2.1
    · rw [fallback_pres_cbn]
      exact hcore.2.2
    · rw [hvf.1]
      exact hani2
    · rw [hvf.2.1]
      exact hanc2
    · rw [hvf.2.2.1]
      exact haci2
    · rw [hvf.2.2.2.1]
      exact hacs2
    · rw [hvf.2.2.2.2]
      exact hasi2
  · intro s nid e now h
    unfold handle_forge_chapters_fetched mark_chapters_load_finished
    dsimp only
    rw [if_neg h]
  · intro s uid e now h
    unfold handle_creatures_fetched show_toast
    dsimp only
    rw [if_neg (show ¬ ({ s with core_loading_in_progress :=
        s.core_loading_in_progress.erase (CoreLoadKey.Creatures uid) } :
          AppState).route = Route.Bestiary uid from h)]

/-- Witness for the amended C5 at the concrete stale-fetch scenario: the
hypotheses hold at `c5StaleState` and the active selection survives the
stale response for novel n1 untouched. -/
theorem C5_stale_response_amended_witness :
    (c5StaleState.route = Route.Forge
      ∧ c5StaleState.active_novel_id = some ("n2")
      ∧ ("n2" : String) ≠ ("n1")
      ∧ (∃ n ∈ c5StaleState.novels, c5StaleState.active_novel_id = some n.id)
      ∧ (∃ c ∈ c5StaleState.active_novel_chapters,
          c5StaleState.active_chapter_id = some c.id)
      ∧ (∃ sc ∈ c5StaleState.active_chapter_scenes,
          c5StaleState.active_scene_id = some sc.id))
    ∧ (handle_forge_chapters_fetched c5StaleState ("n1")
        (Except.ok [exChN1]) 7).active_novel_id = c5StaleState.active_novel_id :=
  ⟨⟨rfl, rfl, by decide, by decide, by decide, by decide⟩,
    (C5_stale_response_amended.2.1 c5StaleState ("n1") ("n2") [exChN1] 7
      rfl rfl (by decide) (by decide) (by decide) (by decide)).2.2.2.1⟩

/-! ## C4 — the per-event fetch orchestrator
(src/controllers/post_event_tasks_controller.rs). Emitted `iced::Task`s
become values of `Emit`; the `Database` handle becomes the `db_present`
flag (the function returns nothing when the handle is absent). -/

inductive Emit where
  | loadProjects
  | dispatchDb (a : DbAction)
  | fetchTrash
  | fetchUniverses
  | fetchBoards
  | fetchPmBoard (board_id : String)
  | fetchCreatures (universe_id : String)
  | fetchLocations (universe_id : String)
  | fetchTimeline (universe_id : String)
  | fetchSnapshots (universe_id : String)
  | fetchSchemaVersion
  | fetchIntegrity
  deriving DecidableEq, Repr

/-- The Data-Store read/fetch requests among the emissions: everything but
the project-file scan and a write dispatch. -/
def isReadFetch : Emit → Bool
  | .loadProjects => false
  | .dispatchDb _ => false
  | _ => true

def CORE_THROTTLE_MS : Nat := 800

def request_universes_if_needed (s : AppState) (now : Nat) :
    AppState × List Emit :=
  if s.universes.isEmpty then
    match core_try_begin_global_load s CoreLoadKey.UniversesList
        s.last_universes_reload CORE_THROTTLE_MS now with
    | (some t, s2) =>
      ({ s2 with last_universes_reload := t }, [Emit.fetchUniverses])
    | (none, s2) => (s2, [])
  else (s, [])

def request_boards_if_needed (s : AppState) (now : Nat) :
    AppState × List Emit :=
  if s.boards_list.isEmpty then
    match core_try_begin_global_load s CoreLoadKey.BoardsList
        s.last_boards_reload CORE_THROTTLE_MS now with
    | (some t, s2) =>
      ({ s2 with last_boards_reload := t }, [Emit.fetchBoards])
    | (none, s2) => (s2, [])
  else (s, [])

def request_pm_board_if_needed (s : AppState) (now : Nat)
    (board_id : String) : AppState × List Emit :=
  let need_fetch : Bool := match s.pm_data with
    | some d => d.board.id != board_id
    | none => true
  if need_fetch = false then (s, [])
  else
    match core_try_begin_scoped_load s (CoreLoadKey.PmBoard board_id)
        (amFind s.pm_board_loaded_for board_id) CORE_THROTTLE_MS now with
    | (true, s2) => (s2, [Emit.fetchPmBoard board_id])
    | (false, s2) => (s2, [])

def request_creatures_if_needed (s : AppState) (now : Nat)
    (universe_id : String) : AppState × List Emit :=
  if s.loaded_creatures_universe = some universe_id then (s, [])
  else
    match core_try_begin_scoped_load s (CoreLoadKey.Creatures universe_id)
        (amFind s.core_creatures_loaded_for universe_id) CORE_THROTTLE_MS now with
    | (true, s2) => (s2, [Emit.fetchCreatures universe_id])
    | (false, s2) => (s2, [])

def request_locations_if_needed (s : AppState) (now : Nat)
    (universe_id : String) : AppState × List Emit :=
  if s.loaded_locations_universe = some universe_id then (s, [])
  else
    match core_try_begin_scoped_load s (CoreLoadKey.Locations universe_id)
        (amFind s.core_locations_loaded_for universe_id) CORE_THROTTLE_MS now with
    | (true, s2) => (s2, [Emit.fetchLocations universe_id])
    | (false, s2) => (s2, [])

def request_timeline_if_needed (s : AppState) (now : Nat)
    (universe_id : String) : AppState × List Emit :=
  if s.loaded_timeline_universe = some universe_id then (s, [])
  else
    match core_try_begin_scoped_load s (CoreLoadKey.Timeline universe_id)
        (amFind s.core_timeline_loaded_for universe_id) CORE_THROTTLE_MS now with
    | (true, s2) => (s2, [Emit.fetchTimeline universe_id])
    | (false, s2) => (s2, [])

def request_snapshots_if_needed (s : AppState) (now : Nat)
    (universe_id : String) : AppState × List Emit :=
  if s.loaded_snapshots_universe = some universe_id then (s, [])
  else
    match core_try_begin_scoped_load s (CoreLoadKey.Snapshots universe_id)
        (amFind s.core_snapshots_loaded_for universe_id) CORE_THROTTLE_MS now with
    | (true, s2) => (s2, [Emit.fetchSnapshots universe_id])
    | (false, s2) => (s2, [])

/-- `post_event_tasks` (post_event_tasks_controller.rs:258-389): process
the DB queue (one action per tick), then the trash fetch and the
route-driven lazy fetches, each gated on the write queue being idle. -/
def post_event_tasks (s : AppState) (db_present : Bool) (now : Nat) :
    AppState × List Emit :=
  if ¬ db_present then (s, []) else
  let tasks0 : List Emit :=
    if s.projects.isEmpty then [Emit.loadProjects] else []
  let step1 : AppState × List Emit :=
    if s.db_inflight = none then
      match s.db_queue with
      | action :: rest =>
        ({ s with db_inflight := some action, db_queue := rest },
          [Emit.dispatchDb action])
      | [] => (s, [])
    else (s, [])
  let s := step1.1
  let tasks1 := step1.2
  let tasks2 : List Emit :=
    if s.route = Route.Trash ∧ s.trash_loaded = false ∧ s.db_inflight = none
    then [Emit.fetchTrash] else []
  let step3 : AppState × List Emit :=
    if s.db_inflight = none ∧ s.db_queue = [] then
      let r1 := request_universes_if_needed s now
      let s := r1.1
      let wants_boards := match s.route with
        | Route.Overview => true
        | Route.PmList => true
        | Route.PmBoard _ => true
        | _ => false
      let r2 := if wants_boards then request_boards_if_needed s now else (s, [])
      let s := r2.1
      let r3 : AppState × List Emit :=
        match s.route with
        | Route.PmBoard board_id => request_pm_board_if_needed s now board_id
        | Route.Bestiary uid =>
          let q1 := request_creatures_if_needed s now uid
          let q2 := request_locations_if_needed q1.1 now uid
          (q2.1, q1.2 ++ q2.2)
        | Route.Locations uid => request_locations_if_needed s now uid
        | Route.Timeline uid =>
          let q1 := request_timeline_if_needed s now uid
          let q2 := request_locations_if_needed q1.1 now uid
          (q2.1, q1.2 ++ q2.2)
        | Route.UniverseDetail uid =>
          let t_schema : List Emit :=
            if s.debug_overlay_open = true ∧ s.debug_schema_version = none
            then [Emit.fetchSchemaVersion] else []
          let q1 := request_snapshots_if_needed s now uid
          let t_int : List Emit :=
            if s.integrity_busy = true then [Emit.fetchIntegrity] else []
          (q1.1, t_schema ++ q1.2 ++ t_int)
        | _ => (s, [])
      (r3.1, r1.2 ++ r2.2 ++ r3.2)
    else (s, [])
  (step3.1, tasks0 ++ tasks1 ++ tasks2 ++ step3.2)

/-- C4: the fetch orchestrator never emits a Data-Store read while a write
is pending. Every read/fetch emission of `post_event_tasks` — the trash
fetch and all route-driven lazy fetches, i.e. everything except the
project-file scan and the dequeue dispatch itself — can only occur when,
at entry, no write command is in-flight and the write queue is empty. -/
theorem C4_no_read_while_write_pending
    (s : AppState) (dbp : Bool) (now : Nat) (e : Emit)
    (hmem : e ∈ (post_event_tasks s dbp now).2)
    (hrf : isReadFetch e = true) :
    s.db_inflight = none ∧ s.db_queue = [] := by
  cases dbp with
  | false => simp [post_event_tasks] at hmem
  | true =>
    cases hinf : s.db_inflight with
    | some a =>
      exfalso
      simp only [post_event_tasks] at hmem
      simp [hinf] at hmem
      rcases hmem with ⟨-, rfl⟩
      simp [isReadFetch] at hrf
    | none =>
      cases hq : s.db_queue with
      | nil => exact ⟨rfl, rfl⟩
      | cons a rest =>
        exfalso
        simp only [post_event_tasks] at hmem
        simp [hinf, hq] at hmem
        rcases hmem with ⟨-, rfl⟩ | rfl <;> simp [isReadFetch] at hrf

/-! ## C6 — write serialization.
`AppState::db_enqueue` (state.rs:498) pushes onto the back of `db_queue`;
`post_event_tasks` step 1 pops the front only when `db_inflight` is `None`
and stores the popped action in the inflight slot; `handle_action_done`
(action_done_controller.rs:171) begins with `state.db_inflight.take()`,
clearing the slot exactly when the command's result is processed. The
three transitions are captured by `QueueStep` over a queue-view state that
additionally records the enqueue and completion histories. -/

/-- `AppState::db_enqueue` (state.rs:498): `self.db_queue.push_back(action)`. -/
def db_enqueue (s : AppState) (a : DbAction) : AppState :=
  { s with db_queue := s.db_queue ++ [a] }

/-- The `state.db_inflight.take()` at the top of `handle_action_done`
(action_done_controller.rs:171): returns the inflight action and clears
the slot. -/
def db_inflight_take (s : AppState) : Option DbAction × AppState :=
  (s.db_inflight, { s with db_inflight := none })

/-- Queue-view of the state: the two real fields plus ghost histories of
everything ever enqueued and everything whose result was processed. -/
structure QueueState where
  db_queue : List DbAction
  db_inflight : Option DbAction
  completed : List DbAction
  enqueued : List DbAction
  deriving DecidableEq, Repr

def qInit : QueueState :=
  { db_queue := [], db_inflight := none, completed := [], enqueued := [] }

/-- The three queue transitions of the code: back-enqueue (`db_enqueue`),
front-dispatch when idle (`post_event_tasks` step 1), and completion
(`db_inflight.take()` in `handle_action_done`). -/
inductive QueueStep : QueueState → QueueState → Prop where
  | enqueue (t : QueueState) (a : DbAction) :
      QueueStep t { t with db_queue := t.db_queue ++ [a],
                           enqueued := t.enqueued ++ [a] }
  | dispatch (t : QueueState) (a : DbAction) (rest : List DbAction) :
      t.db_inflight = none → t.db_queue = a :: rest →
      QueueStep t { t with db_queue := rest, db_inflight := some a }
  | complete (t : QueueState) (a : DbAction) :
      t.db_inflight = some a →
      QueueStep t { t with db_inflight := none,
                           completed := t.completed ++ [a] }

inductive QueueReachable : QueueState → Prop where
  | init : QueueReachable qInit
  | step {t u : QueueState} :
      QueueReachable t → QueueStep t u → QueueReachable u

/-- C6: write serialization. (1) In every reachable queue state the enqueue
history splits as completed ++ inflight ++ queue, so the completion order
is a prefix of the enqueue order and at most one command sits in the
inflight slot. (2) Any step that changes the inflight slot either fills an
empty slot from the queue front or clears a full slot while appending that
command to the completion history. (3) In the embedded `post_event_tasks`,
an idle pass over a non-empty queue moves exactly the front action into
the inflight slot and emits its dispatch. (4) A pass with a write inflight
changes nothing and dispatches nothing. (5) `db_enqueue` appends at the
back without touching the inflight slot, and the `take` in
`handle_action_done` clears the slot, returning its content. -/
theorem C6_write_serialization :
    (∀ t : QueueState, QueueReachable t →
      t.enqueued = t.completed ++ t.db_inflight.toList ++ t.db_queue)
  ∧ (∀ t u : QueueState, QueueStep t u → u.db_inflight ≠ t.db_inflight →
      (t.db_inflight = none ∧ ∃ a rest, t.db_queue = a :: rest ∧
        u.db_inflight = some a ∧ u.db_queue = rest ∧ u.completed = t.completed)
      ∨ (∃ a, t.db_inflight = some a ∧ u.db_inflight = none ∧
          u.completed = t.completed ++ [a] ∧ u.db_queue = t.db_queue))
  ∧ (∀ (s : AppState) (now : Nat) (a : DbAction) (rest : List DbAction),
      s.db_inflight = none → s.db_queue = a :: rest →
      (post_event_tasks s true now).1.db_inflight = some a ∧
      (post_event_tasks s true now).1.db_queue = rest ∧
      Emit.dispatchDb a ∈ (post_event_tasks s true now).2)
  ∧ (∀ (s : AppState) (now : Nat) (a : DbAction),
      s.db_inflight = some a →
      (post_event_tasks s true now).1 = s ∧
      ∀ b, Emit.dispatchDb b ∉ (post_event_tasks s true now).2)
  ∧ (∀ (s : AppState) (a : DbAction),
      (db_enqueue s a).db_queue = s.db_queue ++ [a] ∧
      (db_enqueue s a).db_inflight = s.db_inflight ∧
      (db_inflight_take s).2.db_inflight = none ∧
      (db_inflight_take s).1 = s.db_inflight) := by
  refine ⟨?_, ?_, ?_, ?_, ?_⟩
  · intro t h
    induction h with
    | init => rfl
    | step h1 h2 ih =>
      cases h2 with
      | enqueue a => simp [ih]
      | dispatch a rest h3 h4 => simp_all
      | complete a => simp_all
  · intro t u hstep hne
    cases hstep with
    | enqueue a => exact absurd rfl hne
    | dispatch a rest h3 h4 =>
      exact Or.inl ⟨h3, a, rest, h4, rfl, rfl, rfl⟩
    | complete a h3 =>
      exact Or.inr ⟨a, h3, rfl, rfl, rfl⟩
  · intro s now a rest h1 h2
    refine ⟨?_, ?_, ?_⟩ <;>
      (simp only [post_event_tasks]; simp [h1, h2])
  · intro s now a h
    constructor
    · simp only [post_event_tasks]; simp [h]
    · intro b
      simp only [post_event_tasks]
      simp [h]
  · intro s a
    exact ⟨rfl, rfl, rfl, rfl⟩

/-- Witness for C6: a concrete four-step trace (enqueue twice, dispatch,
complete) reaches a state satisfying the history invariant, and a concrete
app state with one queued action is dispatched by the orchestrator. -/
theorem C6_write_serialization_witness :
    ({ db_queue := [DbAction.CleanupOldTrash], db_inflight := none,
       completed := [DbAction.EmptyTrash],
       enqueued := [DbAction.EmptyTrash, DbAction.CleanupOldTrash] } :
        QueueState).enqueued =
      [DbAction.EmptyTrash] ++ (none : Option DbAction).toList ++
        [DbAction.CleanupOldTrash] ∧
    (post_event_tasks { baseState with db_queue := [DbAction.EmptyTrash] }
        true 0).1.db_inflight = some DbAction.EmptyTrash := by
  constructor
  · exact C6_write_serialization.1 _
      (QueueReachable.step
        (QueueReachable.step
          (QueueReachable.step
            (QueueReachable.step QueueReachable.init
              (QueueStep.enqueue qInit DbAction.EmptyTrash))
            (QueueStep.enqueue _ DbAction.CleanupOldTrash))
          (QueueStep.dispatch _ DbAction.EmptyTrash [DbAction.CleanupOldTrash]
            rfl rfl))
        (QueueStep.complete _ DbAction.EmptyTrash rfl))
  · exact (C6_write_serialization.2.2.1
      { baseState with db_queue := [DbAction.EmptyTrash] } 0
      DbAction.EmptyTrash [] rfl rfl).1

/-! ## C9 / C10 — the trash subsystem (src/db/trash.rs) and the audit hook
(src/controllers/db_controller.rs).

The SQLite database is embedded as a `TrashDb` record of row lists; a
transaction is the `Except` monad — an error leaves the caller's database
unchanged (rollback), `.ok` carries the committed one. `serde_json`
payloads are embedded as the typed `TrashPayload`: decoding a payload as
the entity type demanded by the entry's `target_type` fails exactly when
the payload has a different shape. Primary-key violations of the raw
INSERTs are outside the model; `unixepoch()` and generated UUIDs become
explicit arguments; logger output is dropped. `require_capability`
(db/mod.rs:120) delegates to `guards::check_capability`, which errors iff
`Capabilities::is_enabled` is false, so the embedding tests `is_enabled`
directly. -/

/-- `guards::Capabilities` (src/guards.rs). -/
structure Capabilities where
  universes : Bool
  bestiary : Bool
  locations : Bool
  timeline : Bool
  boards : Bool
  forge : Bool
  snapshots : Bool
  trash : Bool
  deriving DecidableEq, Repr

/-- `Capabilities::is_enabled` (src/guards.rs): canonical-alias match on
the capability name. The source first applies
`capability.trim().to_ascii_lowercase()`; every capability string the code
passes is already a trimmed lowercase literal, so that normalization is
the identity and is omitted here (`String.toLower` does not reduce in the
kernel). -/
def Capabilities.is_enabled (c : Capabilities) (capability : String) : Bool :=
  let cap := capability
  if cap = "novel" ∨ cap = "the_forge" then c.forge
  else if cap = "pm" ∨ cap = "project_management" then c.boards
  else if cap = "worldbuilding" ∨ cap = "world_building" ∨ cap = "world-building"
    then c.universes || c.bestiary || c.locations
  else if cap = "forge" then c.forge
  else if cap = "boards" then c.boards
  else if cap = "universes" ∨ cap = "universe" then c.universes
  else if cap = "bestiary" ∨ cap = "creatures" then c.bestiary
  else if cap = "locations" ∨ cap = "location" then c.locations
  else if cap = "timeline" then c.timeline
  else if cap = "trash" then c.trash
  else if cap = "snapshots" then c.snapshots
  else false

/-- Typed stand-in for `payload_json`: the serialized entity inside a
trash entry. -/
inductive TrashPayload where
  | ofUniverse (u : Universe)
  | ofBoard (b : Board)
  | ofNovel (n : Novel)
  | ofChapter (c : Chapter)
  | ofScene (sc : Scene)
  | ofCreature (c : Creature)
  | ofLocation (l : Location)
  | ofEvent (e : TimelineEvent)
  | ofEra (e : TimelineEra)
  deriving DecidableEq, Repr

/-- `model::TrashEntry` — one row of the `trash_entry` table. -/
structure TrashEntry where
  id : String
  deleted_at : Nat
  target_type : String
  target_id : String
  parent_type : Option String
  parent_id : Option String
  display_name : String
  display_info : Option String
  payload : TrashPayload
  deriving DecidableEq, Repr

/-- The database tables touched by the trash subsystem. `bestiary_entries`
rows are (universe_id, creature); `board_columns` rows are
(column_id, board_id); `audit_log` keeps the inserted action names. -/
structure TrashDb where
  universes : List Universe
  boards : List Board
  board_columns : List (String × String)
  cards : List Card
  novels : List Novel
  chapters : List Chapter
  scenes : List Scene
  bestiary_entries : List (String × Creature)
  locations : List Location
  timeline_events : List TimelineEvent
  timeline_eras : List TimelineEra
  trash_entries : List TrashEntry
  capabilities : Capabilities
  audit_log : List String
  deriving DecidableEq, Repr

/-- `SELECT * FROM trash_entry WHERE id = ?` with `fetch_one`. -/
def find_trash_entry (db : TrashDb) (id : String) : Option TrashEntry :=
  db.trash_entries.find? (fun e => e.id == id)

/-- The `ensure_exists` helper inside `restore_from_trash` (trash.rs:264):
`SELECT 1 FROM <table> WHERE id = ? LIMIT 1`, error when no row. -/
def ensure_exists (db : TrashDb) (kind id : String) : Except String Unit :=
  if kind = "universes" then
    (if db.universes.any (fun u => u.id == id) then Except.ok ()
     else Except.error ("Cannot restore: missing universes record id=" ++ id))
  else if kind = "novels" then
    (if db.novels.any (fun n => n.id == id) then Except.ok ()
     else Except.error ("Cannot restore: missing novels record id=" ++ id))
  else if kind = "chapters" then
    (if db.chapters.any (fun c => c.id == id) then Except.ok ()
     else Except.error ("Cannot restore: missing chapters record id=" ++ id))
  else if kind = "locations" then
    (if db.locations.any (fun l => l.id == id) then Except.ok ()
     else Except.error ("Cannot restore: missing locations record id=" ++ id))
  else Except.error ("ensure_exists called with unsupported kind: " ++ kind)

/-- `a?;` sequencing inside the Rust restore branches: propagate the
validation error, otherwise continue. -/
def eandThen {α : Type} (a : Except String Unit) (b : Except String α) :
    Except String α :=
  match a with
  | .ok _ => b
  | .error e => .error e

def restore_universe (db : TrashDb) (u : Universe) : Except String TrashDb :=
  .ok { db with universes := db.universes ++ [u] }

def restore_board (db : TrashDb) (b : Board) : Except String TrashDb :=
  .ok { db with boards := db.boards ++ [b] }

def restore_novel (db : TrashDb) (n : Novel) : Except String TrashDb :=
  .ok { db with novels := db.novels ++ [n] }

/-- `restore_chapter` (trash.rs:530): re-checks
`SELECT COUNT(*) FROM novels WHERE id = ?` before the INSERT. -/
def restore_chapter (db : TrashDb) (chapter : Chapter) :
    Except String TrashDb :=
  if (db.novels.filter (fun n => n.id == chapter.novel_id)).length = 0 then
    Except.error ("Cannot restore chapter " ++ chapter.id ++ ": novel " ++
      chapter.novel_id ++ " not found")
  else Except.ok { db with chapters := db.chapters ++ [chapter] }

/-- `restore_scene` (trash.rs:562): re-checks the chapter count before the
INSERT. -/
def restore_scene (db : TrashDb) (scene : Scene) : Except String TrashDb :=
  if (db.chapters.filter (fun c => c.id == scene.chapter_id)).length = 0 then
    Except.error ("Cannot restore scene " ++ scene.id ++ ": chapter " ++
      scene.chapter_id ++ " not found")
  else Except.ok { db with scenes := db.scenes ++ [scene] }

def restore_creature (db : TrashDb) (c : Creature) (universe_id : String) :
    Except String TrashDb :=
  .ok { db with bestiary_entries := db.bestiary_entries ++ [(universe_id, c)] }

def restore_location (db : TrashDb) (l : Location) : Except String TrashDb :=
  .ok { db with locations := db.locations ++ [l] }

def restore_event (db : TrashDb) (e : TimelineEvent) : Except String TrashDb :=
  .ok { db with timeline_events := db.timeline_events ++ [e] }

def restore_era (db : TrashDb) (e : TimelineEra) : Except String TrashDb :=
  .ok { db with timeline_eras := db.timeline_eras ++ [e] }

/-! The per-kind arms of `restore_from_trash`'s `match entry.target_type`
(trash.rs:292-392): capability gate, payload decode, parent validation via
`ensure_exists`, then the kind's INSERT helper. Factored one `def` per
arm. -/

def dispatch_universe (db : TrashDb) (entry : TrashEntry) :
    Except String TrashDb :=
  if db.capabilities.is_enabled ("worldbuilding") = false then
    Except.error ("Universe restore blocked by capability")
  else match entry.payload with
    | .ofUniverse u => restore_universe db u
    | _ => Except.error ("payload decode failed")

def dispatch_board (db : TrashDb) (entry : TrashEntry) :
    Except String TrashDb :=
  if db.capabilities.is_enabled ("pm") = false then
    Except.error ("Board restore blocked by capability")
  else match entry.payload with
    | .ofBoard b => restore_board db b
    | _ => Except.error ("payload decode failed")

def dispatch_novel (db : TrashDb) (entry : TrashEntry) :
    Except String TrashDb :=
  if db.capabilities.is_enabled ("novel") = false then
    Except.error ("Novel restore blocked by capability")
  else match entry.payload with
    | .ofNovel n =>
      (match n.universe_id with
       | some uid =>
         eandThen (ensure_exists db ("universes") uid) (restore_novel db n)
       | none => restore_novel db n)
    | _ => Except.error ("payload decode failed")

def dispatch_chapter (db : TrashDb) (entry : TrashEntry) :
    Except String TrashDb :=
  if db.capabilities.is_enabled ("novel") = false then
    Except.error ("Chapter restore blocked by capability")
  else match entry.payload with
    | .ofChapter c =>
      eandThen (ensure_exists db ("novels") c.novel_id) (restore_chapter db c)
    | _ => Except.error ("payload decode failed")

def dispatch_scene (db : TrashDb) (entry : TrashEntry) :
    Except String TrashDb :=
  if db.capabilities.is_enabled ("novel") = false then
    Except.error ("Scene restore blocked by capability")
  else match entry.payload with
    | .ofScene sc =>
      eandThen (ensure_exists db ("chapters") sc.chapter_id)
        (restore_scene db sc)
    | _ => Except.error ("payload decode failed")

def dispatch_creature (db : TrashDb) (entry : TrashEntry) :
    Except String TrashDb :=
  if db.capabilities.is_enabled ("worldbuilding") = false then
    Except.error ("Creature restore blocked by capability")
  else match entry.payload with
    | .ofCreature c =>
      (match entry.parent_id with
       | none => Except.error ("Missing parent_id for creature")
       | some uid =>
         eandThen (ensure_exists db ("universes") uid)
           (match c.home_location_id with
            | some loc_id =>
              eandThen (ensure_exists db ("locations") loc_id)
                (restore_creature db c uid)
            | none => restore_creature db c uid))
    | _ => Except.error ("payload decode failed")

def dispatch_location (db : TrashDb) (entry : TrashEntry) :
    Except String TrashDb :=
  if db.capabilities.is_enabled ("worldbuilding") = false then
    Except.error ("Location restore blocked by capability")
  else match entry.payload with
    | .ofLocation l =>
      eandThen (ensure_exists db ("universes") l.universe_id)
        (match l.parent_id with
         | some pid =>
           eandThen (ensure_exists db ("locations") pid)
             (restore_location db l)
         | none => restore_location db l)
    | _ => Except.error ("payload decode failed")

def dispatch_event (db : TrashDb) (entry : TrashEntry) :
    Except String TrashDb :=
  if db.capabilities.is_enabled ("timeline") = false then
    Except.error ("Event restore blocked by capability")
  else match entry.payload with
    | .ofEvent ev =>
      eandThen (ensure_exists db ("universes") ev.universe_id)
        (match ev.location_id with
         | some lid =>
           eandThen (ensure_exists db ("locations") lid)
             (restore_event db ev)
         | none => restore_event db ev)
    | _ => Except.error ("payload decode failed")

def dispatch_era (db : TrashDb) (entry : TrashEntry) :
    Except String TrashDb :=
  if db.capabilities.is_enabled ("timeline") = false then
    Except.error ("Era restore blocked by capability")
  else match entry.payload with
    | .ofEra er =>
      eandThen (ensure_exists db ("universes") er.universe_id)
        (restore_era db er)
    | _ => Except.error ("payload decode failed")

/-- The `match entry.target_type` itself. -/
def restore_dispatch (db : TrashDb) (entry : TrashEntry) :
    Except String TrashDb :=
  if entry.target_type = "universe" then dispatch_universe db entry
  else if entry.target_type = "board" then dispatch_board db entry
  else if entry.target_type = "novel" then dispatch_novel db entry
  else if entry.target_type = "chapter" then dispatch_chapter db entry
  else if entry.target_type = "scene" then dispatch_scene db entry
  else if entry.target_type = "creature" then dispatch_creature db entry
  else if entry.target_type = "location" then dispatch_location db entry
  else if entry.target_type = "event" then dispatch_event db entry
  else if entry.target_type = "era" then dispatch_era db entry
  else
    Except.error ("Unsupported target_type in trash restore: " ++
      entry.target_type)

/-- `Database::restore_from_trash` (trash.rs:257-415): capability gate,
fetch the entry, dispatch on its kind, and — only when the restore
succeeded — delete the trash entry and append the audit record. -/
def restore_from_trash (db : TrashDb) (trash_entry_id : String) :
    Except String TrashDb :=
  if db.capabilities.is_enabled ("trash") = false then
    Except.error ("Trash restore blocked by capability")
  else
    match find_trash_entry db trash_entry_id with
    | none => Except.error ("no rows returned for trash entry")
    | some entry =>
      match restore_dispatch db entry with
      | .error e => Except.error e
      | .ok db2 =>
        Except.ok { db2 with
          trash_entries :=
            db2.trash_entries.filter (fun e => e.id != trash_entry_id),
          audit_log := db2.audit_log ++ ["trash_restore"] }

/-- `AuditSpec` from db_controller.rs. -/
structure AuditSpec where
  action : String
  entity_type : String
  entity_id : String
  details_json : String
  deriving DecidableEq, Repr

/-- The per-variant `audit = Some(...)` assignments of
`db_controller::execute` (db_controller.rs:27-383); the trash variants
deliberately set no hook audit. -/
def auditSpecFor : DbAction → Option AuditSpec
  | .CreateUniverse id _ _ => some ⟨"create_universe", "universe", id, ""⟩
  | .InjectDemoData id => some ⟨"inject_demo_data", "universe", id, ""⟩
  | .ResetDemoDataScoped id _ =>
      some ⟨"reset_demo_data_scoped", "universe", id, ""⟩
  | .SnapshotCreate universe_id _ =>
      some ⟨"snapshot_create", "universe", universe_id, ""⟩
  | .SnapshotDelete sid => some ⟨"snapshot_delete", "snapshot", sid, ""⟩
  | .SnapshotRestore sid => some ⟨"snapshot_restore", "snapshot", sid, ""⟩
  | .CreateBoard id _ => some ⟨"create_board", "board", id, ""⟩
  | .SaveCreature c _ => some ⟨"save_creature", "creature", c.id, ""⟩
  | .ArchiveCreature id st =>
      some ⟨if st then "archive_creature" else "restore_creature",
        "creature", id, ""⟩
  | .SaveLocation l => some ⟨"save_location", "location", l.id, ""⟩
  | .SaveEvent e => some ⟨"save_timeline_event", "timeline_event", e.id, ""⟩
  | .SaveEra e => some ⟨"save_timeline_era", "timeline_era", e.id, ""⟩
  | .SaveCard c => some ⟨"save_card", "card", c.id, ""⟩
  | .MoveCard cid _ _ => some ⟨"move_card", "card", cid, ""⟩
  | .RebalanceColumn col =>
      some ⟨"rebalance_column", "board_column", col, ""⟩
  | .DeleteCard id => some ⟨"delete_card", "card", id, ""⟩
  | .CreateNovel novel_id _ _ => some ⟨"create_novel", "novel", novel_id, ""⟩
  | .UpdateNovel n => some ⟨"update_novel", "novel", n.id, ""⟩
  | .CreateChapter chapter_id _ _ =>
      some ⟨"create_chapter", "chapter", chapter_id, ""⟩
  | .UpdateChapter c => some ⟨"update_chapter", "chapter", c.id, ""⟩
  | .ReorderChapter chapter_id _ =>
      some ⟨"reorder_chapter", "chapter", chapter_id, ""⟩
  | .CreateScene scene_id _ _ => some ⟨"create_scene", "scene", scene_id, ""⟩
  | .UpdateScene sc => some ⟨"update_scene", "scene", sc.id, ""⟩
  | .ReorderScene scene_id _ =>
      some ⟨"reorder_scene", "scene", scene_id, ""⟩
  | .MoveToTrash _ _ _ _ _ _ _ => none
  | .RestoreFromTrash _ => none
  | .PermanentDelete _ => none
  | .EmptyTrash => none
  | .CleanupOldTrash => none

def isTrashDbAction : DbAction → Bool
  | .MoveToTrash _ _ _ _ _ _ _ => true
  | .RestoreFromTrash _ => true
  | .PermanentDelete _ => true
  | .EmptyTrash => true
  | .CleanupOldTrash => true
  | _ => false

/-- `db_controller::execute` (db_controller.rs:24-403): run the per-action
database call, then — only on success and only for hook-audited actions —
attempt the audit insert, logging (never propagating) its failure. The
outcomes of the two database calls are the explicit `mainResult` /
`auditResult` arguments; the pair is (result reported to `ActionDone`,
logger error lines). -/
def execute (action : DbAction) (mainResult : Except String Unit)
    (auditResult : Except String Unit) : Except String Unit × List String :=
  match mainResult with
  | .error e => (.error e, [])
  | .ok _ =>
    match auditSpecFor action with
    | none => (.ok (), [])
    | some a =>
      match auditResult with
      | .ok _ => (.ok (), [])
      | .error e =>
        (.ok (), ["audit_log insert failed: action=" ++ a.action ++
          " entity_type=" ++ a.entity_type ++ " entity_id=" ++ a.entity_id ++
          " err=" ++ e])

/-- `Database::move_to_trash_and_delete` (trash.rs:43-159): ONE transaction
inserting the trash entry, then the audit row — whose failure propagates
with `?`, aborting and rolling back the whole command — then deleting the
source rows per target kind. The outcome of the in-transaction audit
INSERT is the explicit `auditResult` argument. -/
def move_to_trash_and_delete (db : TrashDb) (trash_id : String) (now : Nat)
    (target_type target_id display_name : String)
    (display_info parent_type parent_id : Option String)
    (payload : TrashPayload) (auditResult : Except String Unit) :
    Except String TrashDb :=
  let db1 := { db with trash_entries := db.trash_entries ++
    [({ id := trash_id, deleted_at := now, target_type := target_type,
        target_id := target_id, parent_type := parent_type,
        parent_id := parent_id, display_name := display_name,
        display_info := display_info, payload := payload } : TrashEntry)] }
  match auditResult with
  | .error e => .error e
  | .ok _ =>
    let db2 :=
      { db1 with audit_log := db1.audit_log ++ ["trash_move_and_delete"] }
    if target_type = "universe" then
      .ok { db2 with
        bestiary_entries :=
          db2.bestiary_entries.filter (fun p => p.1 != target_id),
        locations := db2.locations.filter (fun l => l.universe_id != target_id),
        timeline_events :=
          db2.timeline_events.filter (fun e => e.universe_id != target_id),
        timeline_eras :=
          db2.timeline_eras.filter (fun e => e.universe_id != target_id),
        universes := db2.universes.filter (fun u => u.id != target_id) }
    else if target_type = "board" then
      .ok { db2 with
        cards := db2.cards.filter (fun c =>
          !(db2.board_columns.any (fun col =>
            col.2 == target_id && col.1 == c.column_id))),
        board_columns :=
          db2.board_columns.filter (fun col => col.2 != target_id),
        boards := db2.boards.filter (fun b => b.id != target_id) }
    else if target_type = "novel" then
      .ok { db2 with novels := db2.novels.filter (fun n => n.id != target_id) }
    else if target_type = "chapter" then
      .ok { db2 with
        chapters := db2.chapters.filter (fun c => c.id != target_id) }
    else if target_type = "scene" then
      .ok { db2 with
        scenes := db2.scenes.filter (fun sc => sc.id != target_id) }
    else if target_type = "creature" then
      .ok { db2 with bestiary_entries :=
        db2.bestiary_entries.filter (fun p => p.2.id != target_id) }
    else if target_type = "location" then
      .ok { db2 with
        locations := db2.locations.filter (fun l => l.id != target_id) }
    else if target_type = "event" then
      .ok { db2 with timeline_events :=
        db2.timeline_events.filter (fun e => e.id != target_id) }
    else if target_type = "era" then
      .ok { db2 with timeline_eras :=
        db2.timeline_eras.filter (fun e => e.id != target_id) }
    else Except.error ("Unknown trash target_type: " ++ target_type)

theorem restore_dispatch_chapter_ok (db : TrashDb) (entry : TrashEntry)
    (c : Chapter) (db2 : TrashDb) (ht : entry.target_type = "chapter")
    (hp : entry.payload = TrashPayload.ofChapter c)
    (h : restore_dispatch db entry = Except.ok db2) :
    db.novels.any (fun n => n.id == c.novel_id) = true ∧
    db2.chapters = db.chapters ++ [c] ∧
    db2.trash_entries = db.trash_entries := by
  simp only [restore_dispatch, dispatch_chapter, ht, hp, eandThen,
    ensure_exists, restore_chapter] at h
  simp at h
  by_cases h1 : db.capabilities.is_enabled ("novel") = false
  · rw [if_pos h1] at h
    exact Except.noConfusion h
  · rw [if_neg h1] at h
    by_cases h2 : ∃ x ∈ db.novels, x.id = c.novel_id
    · rw [if_pos h2] at h
      have h3 : ¬ ∀ a ∈ db.novels, ¬ a.id = c.novel_id := by
        rcases h2 with ⟨x, hx, he⟩
        exact fun hall => (hall x hx) he
      simp only [if_neg h3] at h
      simp at h
      refine ⟨by simpa using h2, ?_, ?_⟩
      · rw [← h]
      · rw [← h]
    · rw [if_neg h2] at h
      simp at h

theorem restore_universe_pres (db : TrashDb) (u : Universe) (dbr : TrashDb)
    (h : restore_universe db u = Except.ok dbr) :
    dbr.trash_entries = db.trash_entries := by
  injection h with h2
  rw [← h2]

theorem restore_board_pres (db : TrashDb) (b : Board) (dbr : TrashDb)
    (h : restore_board db b = Except.ok dbr) :
    dbr.trash_entries = db.trash_entries := by
  injection h with h2
  rw [← h2]

theorem restore_novel_pres (db : TrashDb) (n : Novel) (dbr : TrashDb)
    (h : restore_novel db n = Except.ok dbr) :
    dbr.trash_entries = db.trash_entries := by
  injection h with h2
  rw [← h2]

theorem restore_chapter_pres (db : TrashDb) (c : Chapter) (dbr : TrashDb)
    (h : restore_chapter db c = Except.ok dbr) :
    dbr.trash_entries = db.trash_entries := by
  simp only [restore_chapter] at h
  split_ifs at h
  injection h with h2
  rw [← h2]

theorem restore_scene_pres (db : TrashDb) (sc : Scene) (dbr : TrashDb)
    (h : restore_scene db sc = Except.ok dbr) :
    dbr.trash_entries = db.trash_entries := by
  simp only [restore_scene] at h
  split_ifs at h
  injection h with h2
  rw [← h2]

theorem restore_creature_pres (db : TrashDb) (c : Creature) (uid : String)
    (dbr : TrashDb) (h : restore_creature db c uid = Except.ok dbr) :
    dbr.trash_entries = db.trash_entries := by
  injection h with h2
  rw [← h2]

theorem restore_location_pres (db : TrashDb) (l : Location) (dbr : TrashDb)
    (h : restore_location db l = Except.ok dbr) :
    dbr.trash_entries = db.trash_entries := by
  injection h with h2
  rw [← h2]

theorem restore_event_pres (db : TrashDb) (e : TimelineEvent) (dbr : TrashDb)
    (h : restore_event db e = Except.ok dbr) :
    dbr.trash_entries = db.trash_entries := by
  injection h with h2
  rw [← h2]

theorem restore_era_pres (db : TrashDb) (e : TimelineEra) (dbr : TrashDb)
    (h : restore_era db e = Except.ok dbr) :
    dbr.trash_entries = db.trash_entries := by
  injection h with h2
  rw [← h2]

theorem dispatch_universe_pres (db : TrashDb) (entry : TrashEntry)
    (dbr : TrashDb) (h : dispatch_universe db entry = Except.ok dbr) :
    dbr.trash_entries = db.trash_entries := by
  simp only [dispatch_universe] at h
  split_ifs at h
  rcases hp : entry.payload with u | b | n | c | sc | cr | l | ev | er <;>
    simp only [hp] at h
  all_goals try exact Except.noConfusion h
  exact restore_universe_pres db _ dbr h

theorem dispatch_board_pres (db : TrashDb) (entry : TrashEntry)
    (dbr : TrashDb) (h : dispatch_board db entry = Except.ok dbr) :
    dbr.trash_entries = db.trash_entries := by
  simp only [dispatch_board] at h
  split_ifs at h
  rcases hp : entry.payload with u | b | n | c | sc | cr | l | ev | er <;>
    simp only [hp] at h
  all_goals try exact Except.noConfusion h
  exact restore_board_pres db _ dbr h

theorem dispatch_novel_pres (db : TrashDb) (entry : TrashEntry)
    (dbr : TrashDb) (h : dispatch_novel db entry = Except.ok dbr) :
    dbr.trash_entries = db.trash_entries := by
  simp only [dispatch_novel, eandThen] at h
  split_ifs at h
  rcases hp : entry.payload with u | b | n | c | sc | cr | l | ev | er <;>
    simp only [hp] at h
  all_goals try exact Except.noConfusion h
  rcases hu : n.universe_id with _ | uid <;> simp only [hu] at h
  · exact restore_novel_pres db _ dbr h
  · rcases he : ensure_exists db ("universes") uid with e | u2 <;>
      simp only [he] at h
    · exact Except.noConfusion h
    · exact restore_novel_pres db _ dbr h

theorem dispatch_chapter_pres (db : TrashDb) (entry : TrashEntry)
    (dbr : TrashDb) (h : dispatch_chapter db entry = Except.ok dbr) :
    dbr.trash_entries = db.trash_entries := by
  simp only [dispatch_chapter, eandThen] at h
  split_ifs at h
  rcases hp : entry.payload with u | b | n | c | sc | cr | l | ev | er <;>
    simp only [hp] at h
  all_goals try exact Except.noConfusion h
  rcases he : ensure_exists db ("novels") c.novel_id with e | u2 <;>
    simp only [he] at h
  · exact Except.noConfusion h
  · exact restore_chapter_pres db _ dbr h

theorem dispatch_scene_pres (db : TrashDb) (entry : TrashEntry)
    (dbr : TrashDb) (h : dispatch_scene db entry = Except.ok dbr) :
    dbr.trash_entries = db.trash_entries := by
  simp only [dispatch_scene, eandThen] at h
  split_ifs at h
  rcases hp : entry.payload with u | b | n | c | sc | cr | l | ev | er <;>
    simp only [hp] at h
  all_goals try exact Except.noConfusion h
  rcases he : ensure_exists db ("chapters") sc.chapter_id with e | u2 <;>
    simp only [he] at h
  · exact Except.noConfusion h
  · exact restore_scene_pres db _ dbr h

theorem dispatch_creature_pres (db : TrashDb) (entry : TrashEntry)
    (dbr : TrashDb) (h : dispatch_creature db entry = Except.ok dbr) :
    dbr.trash_entries = db.trash_entries := by
  simp only [dispatch_creature, eandThen] at h
  split_ifs at h
  rcases hp : entry.payload with u | b | n | c | sc | cr | l | ev | er <;>
    simp only [hp] at h
  all_goals try exact Except.noConfusion h
  rcases hpar : entry.parent_id with _ | uid <;> simp only [hpar] at h
  · exact Except.noConfusion h
  · rcases he : ensure_exists db ("universes") uid with e | u2 <;>
      simp only [he] at h
    · exact Except.noConfusion h
    · rcases hh : cr.home_location_id with _ | lid <;> simp only [hh] at h
      · exact restore_creature_pres db _ _ dbr h
      · rcases hl : ensure_exists db ("locations") lid with e2 | u3 <;>
          simp only [hl] at h
        · exact Except.noConfusion h
        · exact restore_creature_pres db _ _ dbr h

theorem dispatch_location_pres (db : TrashDb) (entry : TrashEntry)
    (dbr : TrashDb) (h : dispatch_location db entry = Except.ok dbr) :
    dbr.trash_entries = db.trash_entries := by
  simp only [dispatch_location, eandThen] at h
  split_ifs at h
  rcases hp : entry.payload with u | b | n | c | sc | cr | l | ev | er <;>
    simp only [hp] at h
  all_goals try exact Except.noConfusion h
  rcases he : ensure_exists db ("universes") l.universe_id with e | u2 <;>
    simp only [he] at h
  · exact Except.noConfusion h
  · rcases hpp : l.parent_id with _ | pid <;> simp only [hpp] at h
    · exact restore_location_pres db _ dbr h
    · rcases hl : ensure_exists db ("locations") pid with e2 | u3 <;>
        simp only [hl] at h
      · exact Except.noConfusion h
      · exact restore_location_pres db _ dbr h

theorem dispatch_event_pres (db : TrashDb) (entry : TrashEntry)
    (dbr : TrashDb) (h : dispatch_event db entry = Except.ok dbr) :
    dbr.trash_entries = db.trash_entries := by
  simp only [dispatch_event, eandThen] at h
  split_ifs at h
  rcases hp : entry.payload with u | b | n | c | sc | cr | l | ev | er <;>
    simp only [hp] at h
  all_goals try exact Except.noConfusion h
  rcases he : ensure_exists db ("universes") ev.universe_id with e | u2 <;>
    simp only [he] at h
  · exact Except.noConfusion h
  · rcases hloc : ev.location_id with _ | lid <;> simp only [hloc] at h
    · exact restore_event_pres db _ dbr h
    · rcases hl : ensure_exists db ("locations") lid with e2 | u3 <;>
        simp only [hl] at h
      · exact Except.noConfusion h
      · exact restore_event_pres db _ dbr h

theorem dispatch_era_pres (db : TrashDb) (entry : TrashEntry)
    (dbr : TrashDb) (h : dispatch_era db entry = Except.ok dbr) :
    dbr.trash_entries = db.trash_entries := by
  simp only [dispatch_era, eandThen] at h
  split_ifs at h
  rcases hp : entry.payload with u | b | n | c | sc | cr | l | ev | er <;>
    simp only [hp] at h
  all_goals try exact Except.noConfusion h
  rcases he : ensure_exists db ("universes") er.universe_id with e | u2 <;>
    simp only [he] at h
  · exact Except.noConfusion h
  · exact restore_era_pres db _ dbr h

/-- Every successful `restore_dispatch` leaves the `trash_entry` table
untouched: the per-kind INSERT helpers insert only entity rows. -/
theorem restore_dispatch_pres (db : TrashDb) (entry : TrashEntry)
    (dbr : TrashDb) (h : restore_dispatch db entry = Except.ok dbr) :
    dbr.trash_entries = db.trash_entries := by
  simp only [restore_dispatch] at h
  by_cases t1 : entry.target_type = "universe"
  · rw [if_pos t1] at h
    exact dispatch_universe_pres db entry dbr h
  · rw [if_neg t1] at h
    by_cases t2 : entry.target_type = "board"
    · rw [if_pos t2] at h
      exact dispatch_board_pres db entry dbr h
    · rw [if_neg t2] at h
      by_cases t3 : entry.target_type = "novel"
      · rw [if_pos t3] at h
        exact dispatch_novel_pres db entry dbr h
      · rw [if_neg t3] at h
        by_cases t4 : entry.target_type = "chapter"
        · rw [if_pos t4] at h
          exact dispatch_chapter_pres db entry dbr h
        · rw [if_neg t4] at h
          by_cases t5 : entry.target_type = "scene"
          · rw [if_pos t5] at h
            exact dispatch_scene_pres db entry dbr h
          · rw [if_neg t5] at h
            by_cases t6 : entry.target_type = "creature"
            · rw [if_pos t6] at h
              exact dispatch_creature_pres db entry dbr h
            · rw [if_neg t6] at h
              by_cases t7 : entry.target_type = "location"
              · rw [if_pos t7] at h
                exact dispatch_location_pres db entry dbr h
              · rw [if_neg t7] at h
                by_cases t8 : entry.target_type = "event"
                · rw [if_pos t8] at h
                  exact dispatch_event_pres db entry dbr h
                · rw [if_neg t8] at h
                  by_cases t9 : entry.target_type = "era"
                  · rw [if_pos t9] at h
                    exact dispatch_era_pres db entry dbr h
                  · rw [if_neg t9] at h
                    exact Except.noConfusion h

/-- Inversion of a successful `restore_from_trash`: the entry was found,
its dispatch succeeded, and the result is the dispatched database with the
trash entry deleted and the audit row appended. -/
theorem restore_from_trash_ok_inv (db : TrashDb) (tid : String)
    (db2 : TrashDb) (h : restore_from_trash db tid = Except.ok db2) :
    ∃ entry dbr, find_trash_entry db tid = some entry ∧
      restore_dispatch db entry = Except.ok dbr ∧
      db2 = { dbr with
        trash_entries := dbr.trash_entries.filter (fun e => e.id != tid),
        audit_log := dbr.audit_log ++ ["trash_restore"] } := by
  simp only [restore_from_trash] at h
  by_cases h1 : db.capabilities.is_enabled ("trash") = false
  · rw [if_pos h1] at h
    exact Except.noConfusion h
  · rw [if_neg h1] at h
    rcases hfind : find_trash_entry db tid with _ | entry
    · simp only [hfind] at h
      exact Except.noConfusion h
    · simp only [hfind] at h
      rcases hd : restore_dispatch db entry with e | dbr
      · simp only [hd] at h
        exact Except.noConfusion h
      · simp only [hd] at h
        injection h with h2
        exact ⟨entry, dbr, rfl, hd, h2.symm⟩

theorem restore_dispatch_scene_ok (db : TrashDb) (entry : TrashEntry)
    (sc : Scene) (db2 : TrashDb) (ht : entry.target_type = "scene")
    (hp : entry.payload = TrashPayload.ofScene sc)
    (h : restore_dispatch db entry = Except.ok db2) :
    db.chapters.any (fun ch => ch.id == sc.chapter_id) = true := by
  simp only [restore_dispatch, dispatch_scene, ht, hp, eandThen,
    ensure_exists, restore_scene] at h
  simp at h
  by_cases h1 : db.capabilities.is_enabled ("novel") = false
  · rw [if_pos h1] at h
    exact Except.noConfusion h
  · rw [if_neg h1] at h
    by_cases h2 : ∃ x ∈ db.chapters, x.id = sc.chapter_id
    · simpa using h2
    · rw [if_neg h2] at h
      simp at h

theorem restore_dispatch_location_ok (db : TrashDb) (entry : TrashEntry)
    (l : Location) (db2 : TrashDb) (ht : entry.target_type = "location")
    (hp : entry.payload = TrashPayload.ofLocation l)
    (h : restore_dispatch db entry = Except.ok db2) :
    db.universes.any (fun u => u.id == l.universe_id) = true := by
  simp only [restore_dispatch, dispatch_location, ht, hp, eandThen,
    ensure_exists] at h
  simp at h
  by_cases h1 : db.capabilities.is_enabled ("worldbuilding") = false
  · rw [if_pos h1] at h
    exact Except.noConfusion h
  · rw [if_neg h1] at h
    by_cases h2 : ∃ x ∈ db.universes, x.id = l.universe_id
    · simpa using h2
    · rw [if_neg h2] at h
      simp at h

theorem restore_dispatch_creature_ok (db : TrashDb) (entry : TrashEntry)
    (c : Creature) (uid : String) (db2 : TrashDb)
    (ht : entry.target_type = "creature")
    (hp : entry.payload = TrashPayload.ofCreature c)
    (hpar : entry.parent_id = some uid)
    (h : restore_dispatch db entry = Except.ok db2) :
    db.universes.any (fun u => u.id == uid) = true := by
  simp only [restore_dispatch, dispatch_creature, ht, hp, hpar, eandThen,
    ensure_exists] at h
  simp at h
  by_cases h1 : db.capabilities.is_enabled ("worldbuilding") = false
  · rw [if_pos h1] at h
    exact Except.noConfusion h
  · rw [if_neg h1] at h
    by_cases h2 : ∃ x ∈ db.universes, x.id = uid
    · simpa using h2
    · rw [if_neg h2] at h
      simp at h

theorem restore_dispatch_event_ok (db : TrashDb) (entry : TrashEntry)
    (ev : TimelineEvent) (db2 : TrashDb) (ht : entry.target_type = "event")
    (hp : entry.payload = TrashPayload.ofEvent ev)
    (h : restore_dispatch db entry = Except.ok db2) :
    db.universes.any (fun u => u.id == ev.universe_id) = true := by
  simp only [restore_dispatch, dispatch_event, ht, hp, eandThen,
    ensure_exists] at h
  simp at h
  by_cases h1 : db.capabilities.is_enabled ("timeline") = false
  · rw [if_pos h1] at h
    exact Except.noConfusion h
  · rw [if_neg h1] at h
    by_cases h2 : ∃ x ∈ db.universes, x.id = ev.universe_id
    · simpa using h2
    · rw [if_neg h2] at h
      simp at h

theorem restore_dispatch_era_ok (db : TrashDb) (entry : TrashEntry)
    (er : TimelineEra) (db2 : TrashDb) (ht : entry.target_type = "era")
    (hp : entry.payload = TrashPayload.ofEra er)
    (h : restore_dispatch db entry = Except.ok db2) :
    db.universes.any (fun u => u.id == er.universe_id) = true := by
  simp only [restore_dispatch, dispatch_era, ht, hp, eandThen,
    ensure_exists] at h
  simp at h
  by_cases h1 : db.capabilities.is_enabled ("timeline") = false
  · rw [if_pos h1] at h
    exact Except.noConfusion h
  · rw [if_neg h1] at h
    by_cases h2 : ∃ x ∈ db.universes, x.id = er.universe_id
    · simpa using h2
    · rw [if_neg h2] at h
      simp at h

/-- C9: `restore_from_trash` re-validates recorded parents before
re-inserting. Conjuncts 1-6: a chapter whose novel is missing, a scene
whose chapter is missing, and a location/creature/event/era whose universe
is missing all make the restore return an error — and since the embedding
threads the database through `Except`, an error leaves the caller's
database exactly as it was: no rows inserted, trash entry retained for a
later retry. Conjunct 7: whenever the restore returns `.ok`, the result is
the database with that trash entry deleted (the deletion happens only on
the success path) and the entry did exist. Conjunct 8: a successful
chapter restore really inserted the chapter and its parent novel existed
beforehand. -/
theorem C9_restore_revalidates_parents :
    (∀ (db : TrashDb) (tid : String) (entry : TrashEntry) (c : Chapter),
      find_trash_entry db tid = some entry →
      entry.target_type = "chapter" →
      entry.payload = TrashPayload.ofChapter c →
      db.novels.all (fun n => n.id != c.novel_id) = true →
      ∃ msg, restore_from_trash db tid = Except.error msg)
  ∧ (∀ (db : TrashDb) (tid : String) (entry : TrashEntry) (sc : Scene),
      find_trash_entry db tid = some entry →
      entry.target_type = "scene" →
      entry.payload = TrashPayload.ofScene sc →
      db.chapters.all (fun ch => ch.id != sc.chapter_id) = true →
      ∃ msg, restore_from_trash db tid = Except.error msg)
  ∧ (∀ (db : TrashDb) (tid : String) (entry : TrashEntry) (l : Location),
      find_trash_entry db tid = some entry →
      entry.target_type = "location" →
      entry.payload = TrashPayload.ofLocation l →
      db.universes.all (fun u => u.id != l.universe_id) = true →
      ∃ msg, restore_from_trash db tid = Except.error msg)
  ∧ (∀ (db : TrashDb) (tid : String) (entry : TrashEntry) (cr : Creature)
      (uid : String),
      find_trash_entry db tid = some entry →
      entry.target_type = "creature" →
      entry.payload = TrashPayload.ofCreature cr →
      entry.parent_id = some uid →
      db.universes.all (fun u => u.id != uid) = true →
      ∃ msg, restore_from_trash db tid = Except.error msg)
  ∧ (∀ (db : TrashDb) (tid : String) (entry : TrashEntry)
      (ev : TimelineEvent),
      find_trash_entry db tid = some entry →
      entry.target_type = "event" →
      entry.payload = TrashPayload.ofEvent ev →
      db.universes.all (fun u => u.id != ev.universe_id) = true →
      ∃ msg, restore_from_trash db tid = Except.error msg)
  ∧ (∀ (db : TrashDb) (tid : String) (entry : TrashEntry)
      (er : TimelineEra),
      find_trash_entry db tid = some entry →
      entry.target_type = "era" →
      entry.payload = TrashPayload.ofEra er →
      db.universes.all (fun u => u.id != er.universe_id) = true →
      ∃ msg, restore_from_trash db tid = Except.error msg)
  ∧ (∀ (db : TrashDb) (tid : String) (db2 : TrashDb),
      restore_from_trash db tid = Except.ok db2 →
      db2.trash_entries = db.trash_entries.filter (fun e => e.id != tid) ∧
      ∃ entry, find_trash_entry db tid = some entry)
  ∧ (∀ (db : TrashDb) (tid : String) (entry : TrashEntry) (c : Chapter)
      (db2 : TrashDb),
      find_trash_entry db tid = some entry →
      entry.target_type = "chapter" →
      entry.payload = TrashPayload.ofChapter c →
      restore_from_trash db tid = Except.ok db2 →
      c ∈ db2.chapters ∧
      db.novels.any (fun n => n.id == c.novel_id) = true) := by
  refine ⟨?_, ?_, ?_, ?_, ?_, ?_, ?_, ?_⟩
  · intro db tid entry c hf ht hp hall
    rcases hx : restore_from_trash db tid with msg | db2
    · exact ⟨msg, rfl⟩
    · exfalso
      rcases restore_from_trash_ok_inv db tid db2 hx with ⟨e2, dbr, hf2, hd, -⟩
      rw [hf] at hf2
      injection hf2 with he
      subst he
      have hany := (restore_dispatch_chapter_ok db entry c dbr ht hp hd).1
      rcases List.any_eq_true.mp hany with ⟨n, hn, hb⟩
      have hne := (List.all_eq_true.mp hall) n hn
      simp at hb hne
      exact hne hb
  · intro db tid entry sc hf ht hp hall
    rcases hx : restore_from_trash db tid with msg | db2
    · exact ⟨msg, rfl⟩
    · exfalso
      rcases restore_from_trash_ok_inv db tid db2 hx with ⟨e2, dbr, hf2, hd, -⟩
      rw [hf] at hf2
      injection hf2 with he
      subst he
      have hany := restore_dispatch_scene_ok db entry sc dbr ht hp hd
      rcases List.any_eq_true.mp hany with ⟨n, hn, hb⟩
      have hne := (List.all_eq_true.mp hall) n hn
      simp at hb hne
      exact hne hb
  · intro db tid entry l hf ht hp hall
    rcases hx : restore_from_trash db tid with msg | db2
    · exact ⟨msg, rfl⟩
    · exfalso
      rcases restore_from_trash_ok_inv db tid db2 hx with ⟨e2, dbr, hf2, hd, -⟩
      rw [hf] at hf2
      injection hf2 with he
      subst he
      have hany := restore_dispatch_location_ok db entry l dbr ht hp hd
      rcases List.any_eq_true.mp hany with ⟨n, hn, hb⟩
      have hne := (List.all_eq_true.mp hall) n hn
      simp at hb hne
      exact hne hb
  · intro db tid entry cr uid hf ht hp hpar hall
    rcases hx : restore_from_trash db tid with msg | db2
    · exact ⟨msg, rfl⟩
    · exfalso
      rcases restore_from_trash_ok_inv db tid db2 hx with ⟨e2, dbr, hf2, hd, -⟩
      rw [hf] at hf2
      injection hf2 with he
      subst he
      have hany := restore_dispatch_creature_ok db entry cr uid dbr ht hp
        hpar hd
      rcases List.any_eq_true.mp hany with ⟨n, hn, hb⟩
      have hne := (List.all_eq_true.mp hall) n hn
      simp at hb hne
      exact hne hb
  · intro db tid entry ev hf ht hp hall
    rcases hx : restore_from_trash db tid with msg | db2
    · exact ⟨msg, rfl⟩
    · exfalso
      rcases restore_from_trash_ok_inv db tid db2 hx with ⟨e2, dbr, hf2, hd, -⟩
      rw [hf] at hf2
      injection hf2 with he
      subst he
      have hany := restore_dispatch_event_ok db entry ev dbr ht hp hd
      rcases List.any_eq_true.mp hany with ⟨n, hn, hb⟩
      have hne := (List.all_eq_true.mp hall) n hn
      simp at hb hne
      exact hne hb
  · intro db tid entry er hf ht hp hall
    rcases hx : restore_from_trash db tid with msg | db2
    · exact ⟨msg, rfl⟩
    · exfalso
      rcases restore_from_trash_ok_inv db tid db2 hx with ⟨e2, dbr, hf2, hd, -⟩
      rw [hf] at hf2
      injection hf2 with he
      subst he
      have hany := restore_dispatch_era_ok db entry er dbr ht hp hd
      rcases List.any_eq_true.mp hany with ⟨n, hn, hb⟩
      have hne := (List.all_eq_true.mp hall) n hn
      simp at hb hne
      exact hne hb
  · intro db tid db2 hx
    rcases restore_from_trash_ok_inv db tid db2 hx with ⟨entry, dbr, hf, hd, hdb2⟩
    have hpres := restore_dispatch_pres db entry dbr hd
    subst hdb2
    refine ⟨?_, ⟨entry, hf⟩⟩
    show dbr.trash_entries.filter (fun e => e.id != tid) =
      db.trash_entries.filter (fun e => e.id != tid)
    rw [hpres]
  · intro db tid entry c db2 hf ht hp hx
    rcases restore_from_trash_ok_inv db tid db2 hx with ⟨e2, dbr, hf2, hd, hdb2⟩
    rw [hf] at hf2
    injection hf2 with he
    subst he
    have hc := restore_dispatch_chapter_ok db entry c dbr ht hp hd
    subst hdb2
    refine ⟨?_, hc.1⟩
    show c ∈ dbr.chapters
    rw [hc.2.1]
    simp

def capAll : Capabilities :=
  { universes := true, bestiary := true, locations := true, timeline := true,
    boards := true, forge := true, snapshots := true, trash := true }

def exChap9 : Chapter :=
  { id := "c9", novel_id := "n9", title := "Ch", position := 1,
    synopsis := "", status := "draft", created_at := 0, updated_at := 0 }

def exEntry9 : TrashEntry :=
  { id := "t9", deleted_at := 3, target_type := "chapter", target_id := "c9",
    parent_type := some ("novel"), parent_id := some ("n9"),
    display_name := "Ch", display_info := none,
    payload := TrashPayload.ofChapter exChap9 }

def exNovel9 : Novel :=
  { id := "n9", universe_id := none, title := "N", synopsis := "",
    status := "draft", created_at := 0, updated_at := 0 }

def dbMissing9 : TrashDb :=
  { universes := [], boards := [], board_columns := [], cards := [],
    novels := [], chapters := [], scenes := [], bestiary_entries := [],
    locations := [], timeline_events := [], timeline_eras := [],
    trash_entries := [exEntry9], capabilities := capAll, audit_log := [] }

def dbOk9 : TrashDb := { dbMissing9 with novels := [exNovel9] }

def db9After : TrashDb :=
  { dbOk9 with
      chapters := [exChap9]
      trash_entries := []
      audit_log := ["trash_restore"] }

/-- Witness for C9: with the parent novel absent the chapter restore
errors; with it present the same entry restores, the chapter row is
inserted and the parent was there. -/
theorem C9_restore_revalidates_parents_witness :
    (∃ msg, restore_from_trash dbMissing9 ("t9") = Except.error msg) ∧
    exChap9 ∈ db9After.chapters ∧
    dbOk9.novels.any (fun n => n.id == exChap9.novel_id) = true :=
  ⟨C9_restore_revalidates_parents.1 dbMissing9 ("t9") exEntry9 exChap9
      rfl rfl rfl rfl,
   (C9_restore_revalidates_parents.2.2.2.2.2.2.2 dbOk9 ("t9") exEntry9
      exChap9 db9After rfl rfl rfl rfl).1,
   (C9_restore_revalidates_parents.2.2.2.2.2.2.2 dbOk9 ("t9") exEntry9
      exChap9 db9After rfl rfl rfl rfl).2⟩

def exNovel10 : Novel :=
  { id := "n1", universe_id := none, title := "My Novel", synopsis := "",
    status := "draft", created_at := 0, updated_at := 0 }

def exDb10 : TrashDb := { dbMissing9 with
  trash_entries := []
  novels := [exNovel10] }

def exEntry10 : TrashEntry :=
  { id := "t1", deleted_at := 5, target_type := "novel", target_id := "n1",
    parent_type := none, parent_id := none, display_name := "My Novel",
    display_info := none, payload := TrashPayload.ofNovel exNovel10 }

/-- C10 counterexample: the claim says an audit-write failure never causes
failure of the original command "for any command kind including the trash
operations". But `MoveToTrash` runs `move_to_trash_and_delete`, whose
audit INSERT sits inside the command's transaction with `?`: when that
insert fails, the whole command fails (first conjunct) — the same call
with the audit insert succeeding commits fine (second conjunct), so the
failure is attributable to the audit write alone. -/
theorem C10_counterexample :
    move_to_trash_and_delete exDb10 ("t1") 5 ("novel") ("n1") ("My Novel")
        none none none (TrashPayload.ofNovel exNovel10)
        (Except.error ("audit insert failed"))
      = Except.error ("audit insert failed") ∧
    move_to_trash_and_delete exDb10 ("t1") 5 ("novel") ("n1") ("My Novel")
        none none none (TrashPayload.ofNovel exNovel10) (Except.ok ())
      = Except.ok { exDb10 with
          trash_entries := [exEntry10]
          audit_log := ["trash_move_and_delete"]
          novels := [] } :=
  ⟨rfl, rfl⟩

/-- C10 (amended): the post-success audit hook of `db_controller::execute`
is indeed best-effort — the reported result always equals the main
operation's result and an audit failure there is only logged (conjuncts
1-2) — but the hook never audits the trash commands at all (conjunct 3);
those perform their audit insert inside the command itself, where, for
`move_to_trash_and_delete`, an audit failure aborts and rolls back the
whole command (conjunct 4). -/
theorem C10_audit_best_effort_amended :
    (∀ (action : DbAction) (mr ar : Except String Unit),
      (execute action mr ar).1 = mr)
  ∧ (∀ (action : DbAction) (mr : Except String Unit),
      (execute action mr (Except.ok ())).2 = [])
  ∧ (∀ action : DbAction, isTrashDbAction action = true →
      auditSpecFor action = none)
  ∧ (∀ (db : TrashDb) (trash_id : String) (now : Nat)
      (tt tid dn : String) (di pt pid : Option String)
      (payload : TrashPayload) (e : String),
      move_to_trash_and_delete db trash_id now tt tid dn di pt pid payload
        (Except.error e) = Except.error e) := by
  refine ⟨?_, ?_, ?_, ?_⟩
  · intro action mr ar
    cases mr with
    | error e => rfl
    | ok u =>
      cases u
      cases haud : auditSpecFor action with
      | none => simp [execute, haud]
      | some a =>
        cases ar with
        | ok v =>
          cases v
          simp [execute, haud]
        | error e => simp [execute, haud]
  · intro action mr
    cases mr with
    | error e => rfl
    | ok u =>
      cases u
      cases haud : auditSpecFor action with
      | none => simp [execute, haud]
      | some a => simp [execute, haud]
  · intro action h
    cases action <;> first | rfl | exact Bool.noConfusion h
  · intro db trash_id now tt tid dn di pt pid payload e
    rfl

/-- Witness for C10 (amended): a `CreateUniverse` whose main call succeeds
but whose hook audit insert fails still reports success, and the
`MoveToTrash` command carries no hook audit. -/
theorem C10_audit_best_effort_amended_witness :
    (execute (DbAction.CreateUniverse ("u1") ("U") ("")) (Except.ok ())
      (Except.error ("boom"))).1 = Except.ok () ∧
    auditSpecFor (DbAction.MoveToTrash ("novel") ("n1") ("My Novel")
      none none none ("")) = none :=
  ⟨C10_audit_best_effort_amended.1
      (DbAction.CreateUniverse ("u1") ("U") ("")) (Except.ok ())
      (Except.error ("boom")),
   C10_audit_best_effort_amended.2.2.1
      (DbAction.MoveToTrash ("novel") ("n1") ("My Novel") none none none
        ("")) rfl⟩

/-- Witness for C4 at a concrete state: on the Trash route with nothing
loaded, an idle queue and no inflight write, the orchestrator does emit the
trash fetch, and the theorem applies to it. -/
theorem C4_no_read_while_write_pending_witness :
    Emit.fetchTrash ∈
      (post_event_tasks { baseState with route := Route.Trash } true 0).2 ∧
    ({ baseState with route := Route.Trash } : AppState).db_inflight = none ∧
    ({ baseState with route := Route.Trash } : AppState).db_queue = [] :=
  ⟨by decide,
   C4_no_read_while_write_pending { baseState with route := Route.Trash }
     true 0 Emit.fetchTrash (by decide) (by decide)⟩

end Tas

